import Mathlib

/-
Verification development for the cuentas-service (bank account microservice)
of the Agencia de viajes - Pancho's repository.

Shallow embedding conventions:
- Monetary values (Python float) are modelled as exact rationals (ℚ); the
  operations of the source perform only +, -, comparison and 2-decimal
  rounding on them.
- Firestore is modelled as an in-memory state: an association list of
  (document id, Cuenta) plus an append-only list of Movimiento records.
  Firestore's `doc_ref.update` raises when the document is absent; this is
  modelled by an Except error.  Document ids assigned by `.add` are globally
  fresh; the model prepends the new document so `get_by_id` finds it.
- Python exceptions (HTTPException) are modelled by Except with an error
  type whose constructors carry the dynamic data of the corresponding
  f-string detail message.
- Timestamp fields (fecha_apertura, created_at, updated_at, fecha) play no
  role in any verified property and are omitted from the record types.
- The unbounded retry loop of `_generar_numero_cuenta_unico` is modelled
  with explicit fuel; `none` models non-termination of the Python loop.
-/

namespace Panchos

/-- Modelled from app/models.py: TipoCuenta enum. -/
inductive TipoCuenta where
  | AHORRO
  | CORRIENTE
  deriving DecidableEq, Repr

/-- Modelled from app/models.py: Moneda enum. -/
inductive Moneda where
  | BOB
  | USD
  deriving DecidableEq, Repr

/-- Modelled from app/models.py: EstadoCuenta enum. -/
inductive EstadoCuenta where
  | ACTIVA
  | BLOQUEADA
  | CERRADA
  deriving DecidableEq, Repr

/-- Modelled from app/models.py: TipoMovimiento enum. -/
inductive TipoMovimiento where
  | DEPOSITO
  | RETIRO
  | TRANSFERENCIA_ENTRADA
  | TRANSFERENCIA_SALIDA
  | PAGO_SERVICIO
  deriving DecidableEq, Repr

/-- Modelled from app/models.py: the Cuenta document (timestamps omitted). -/
structure Cuenta where
  cliente_id : String
  numero_cuenta : String
  tipo : TipoCuenta
  moneda : Moneda
  saldo : ℚ
  estado : EstadoCuenta
  deriving DecidableEq, Repr

/-- Modelled from app/models.py: the Movimiento document (timestamps omitted). -/
structure Movimiento where
  cuenta_id : String
  tipo : TipoMovimiento
  monto : ℚ
  saldo_anterior : ℚ
  saldo_nuevo : ℚ
  descripcion : String
  referencia : Option String
  deriving DecidableEq, Repr

/-- Firestore contents relevant to the service: the `cuentas` collection as
an association list keyed by document id, and the `movimientos` collection
as an append-only list. -/
structure ServiceState where
  cuentas : List (String × Cuenta)
  movimientos : List Movimiento
  deriving DecidableEq, Repr

/-- Error type; each constructor stands for one distinct HTTPException the
service raises, carrying the dynamic data interpolated into its detail
message, plus storeError for a persistence-layer exception. -/
inductive ApiError where
  /-- 404 "Cuenta con ID {cuenta_id} no encontrada" (obtener_cuenta). -/
  | cuentaNoEncontrada (cuenta_id : String)
  /-- 400 "La cuenta está {estado}. No se pueden realizar depósitos/retiros." -/
  | estadoInvalido (estado : EstadoCuenta)
  /-- 400 "Saldo insuficiente. Saldo disponible: {saldo} {moneda}" (retirar):
  the detail includes the available balance and the currency. -/
  | saldoInsuficiente (saldo : ℚ) (moneda : Moneda)
  /-- 400 "La cuenta no está activa" (descontar_saldo / acreditar_saldo). -/
  | cuentaNoActiva
  /-- 400 "Saldo insuficiente" (descontar_saldo, no dynamic data). -/
  | saldoInsuficienteSinDetalle
  /-- 400 "La cuenta ya está bloqueada" (bloquear_cuenta). -/
  | yaBloqueada
  /-- 400 "La cuenta no está bloqueada" (desbloquear_cuenta). -/
  | noBloqueada
  /-- Persistence-layer exception (e.g. Firestore update on a missing doc). -/
  | storeError
  deriving DecidableEq, Repr

/-- Python's round(x, 2) rounds half to even (banker's rounding); integer
result of rounding q to the nearest integer, ties to even. -/
def roundHalfEven (q : ℚ) : ℤ :=
  let n := ⌊q⌋
  let frac := q - (n : ℚ)
  if frac < 1/2 then n
  else if 1/2 < frac then n + 1
  else if n % 2 = 0 then n else n + 1

/-- Rounding to 2 decimal places, as `round(v, 2)` in app/schemas.py. -/
def round2 (q : ℚ) : ℚ := (roundHalfEven (q * 100) : ℚ) / 100

/-- A rational is representable with at most 2 decimal places. -/
def is2dp (q : ℚ) : Prop := (q * 100).den = 1

instance (q : ℚ) : Decidable (is2dp q) := by
  unfold is2dp
  infer_instance

/-- Modelled from app/schemas.py: DepositoRequest (validated payload). -/
structure DepositoRequest where
  monto : ℚ
  descripcion : String
  deriving DecidableEq, Repr

/-- Modelled from app/schemas.py: RetiroRequest (validated payload). -/
structure RetiroRequest where
  monto : ℚ
  descripcion : String
  deriving DecidableEq, Repr

/-- Pydantic validation of DepositoRequest: Field(gt=0), validator rejecting
monto ≤ 0 and monto > 1000000, descripcion length in [1, 255], and
round(v, 2) applied to the accepted amount. -/
def mkDepositoRequest (monto : ℚ) (descripcion : String) : Except String DepositoRequest :=
  if monto ≤ 0 then .error "El monto debe ser mayor a 0"
  else if 1000000 < monto then .error "El monto excede el límite permitido"
  else if descripcion.length < 1 || 255 < descripcion.length then .error "descripcion inválida"
  else .ok { monto := round2 monto, descripcion := descripcion }

/-- Pydantic validation of RetiroRequest: Field(gt=0), validator rejecting
monto ≤ 0, descripcion length in [1, 255], and round(v, 2) applied. -/
def mkRetiroRequest (monto : ℚ) (descripcion : String) : Except String RetiroRequest :=
  if monto ≤ 0 then .error "El monto debe ser mayor a 0"
  else if descripcion.length < 1 || 255 < descripcion.length then .error "descripcion inválida"
  else .ok { monto := round2 monto, descripcion := descripcion }

/-- Modelled from app/schemas.py: CuentaCreate (validated payload;
saldo_inicial carries Field(ge=0) plus a validator rejecting negatives). -/
structure CuentaCreate where
  cliente_id : String
  tipo : TipoCuenta
  moneda : Moneda
  saldo_inicial : ℚ
  deriving DecidableEq, Repr

/-- Modelled from app/schemas.py: CuentaUpdate, a partial update where each
absent field is left unset (model_dump(exclude_unset=True)). -/
structure CuentaUpdate where
  tipo : Option TipoCuenta
  estado : Option EstadoCuenta
  deriving DecidableEq, Repr

/-- Modelled from app/schemas.py: OperacionResponse. -/
structure OperacionResponse where
  success : Bool
  mensaje : String
  cuenta_id : String
  saldo_anterior : ℚ
  saldo_nuevo : ℚ
  monto : ℚ
  movimiento_id : Option String
  deriving DecidableEq, Repr

/-- Fields of a repository `update(cuenta_id, update_data)` dict; only the
fields the service ever writes (tipo, estado, saldo) are modelled. -/
structure UpdateData where
  tipo : Option TipoCuenta
  estado : Option EstadoCuenta
  saldo : Option ℚ
  deriving DecidableEq, Repr

/-- Applying an update dict to a stored Cuenta document. -/
def applyUpdate (c : Cuenta) (u : UpdateData) : Cuenta :=
  { c with
    tipo := u.tipo.getD c.tipo
    estado := u.estado.getD c.estado
    saldo := u.saldo.getD c.saldo }

namespace CuentasRepository

/-- Modelled from app/repos/cuentas_repo.py `get_by_id`: fetch the document
with the given id, none if absent. -/
def get_by_id (s : ServiceState) (cuenta_id : String) : Option Cuenta :=
  (s.cuentas.find? (fun p => p.1 == cuenta_id)).map Prod.snd

/-- Modelled from app/repos/cuentas_repo.py `_cuenta_existe`: whether some
stored account already carries this numero_cuenta. -/
def cuenta_existe (s : ServiceState) (numero_cuenta : String) : Bool :=
  s.cuentas.any (fun p => p.2.numero_cuenta == numero_cuenta)

/-- Decimal digit characters, indexed. -/
def digitChar : Fin 10 → Char
  | 0 => '0'
  | 1 => '1'
  | 2 => '2'
  | 3 => '3'
  | 4 => '4'
  | 5 => '5'
  | 6 => '6'
  | 7 => '7'
  | 8 => '8'
  | 9 => '9'

/-- The 10 decimal digits of n (least significant first), as characters. -/
def toDigits10 (n : ℕ) : List Char :=
  (List.range 10).map (fun i => digitChar ⟨n / 10 ^ i % 10, Nat.mod_lt _ (by norm_num)⟩)

/-- Modelled from app/repos/cuentas_repo.py `_generar_numero_cuenta`:
``''.join(random.choices(string.digits, k=10))``.  The random source is
modelled as a function rng from the draw counter to a natural number whose
10 low decimal digits form the drawn string. -/
def generar_numero_cuenta (rng : ℕ → ℕ) (k : ℕ) : String :=
  String.mk (toDigits10 (rng k))

/-- Modelled from app/repos/cuentas_repo.py `_generar_numero_cuenta_unico`:
draw a candidate, return it if no stored account carries it, otherwise
retry.  The `while True` loop is given explicit fuel; none models a
non-terminating run. -/
def generar_numero_cuenta_unico (existe : String → Bool) (rng : ℕ → ℕ) :
    ℕ → ℕ → Option String
  | 0, _ => none
  | fuel + 1, k =>
    let numero := generar_numero_cuenta rng k
    if existe numero then generar_numero_cuenta_unico existe rng fuel (k + 1)
    else some numero

/-- Modelled from app/repos/cuentas_repo.py `create`: assign a freshly
generated unique numero_cuenta, persist the document under a store-assigned
fresh id, return the id.  Firestore `.add` ids are globally unique; the new
document is prepended so lookups resolve to it. -/
def create (rng : ℕ → ℕ) (fuel k : ℕ) (s : ServiceState) (cuenta : Cuenta) :
    Option (String × ServiceState) :=
  match generar_numero_cuenta_unico (cuenta_existe s) rng fuel k with
  | none => none
  | some numero =>
    let cuenta_id := "doc" ++ toString s.cuentas.length
    let c := { cuenta with numero_cuenta := numero }
    some (cuenta_id, { s with cuentas := (cuenta_id, c) :: s.cuentas })

/-- Modelled from app/repos/cuentas_repo.py `update`: Firestore
`doc_ref.update` raises when the document is absent (storeError); otherwise
the fields are written and the method returns True unconditionally. -/
def update (s : ServiceState) (cuenta_id : String) (update_data : UpdateData) :
    Except ApiError (Bool × ServiceState) :=
  if (get_by_id s cuenta_id).isSome then
    .ok (true,
      { s with
        cuentas := s.cuentas.map
          (fun p => if p.1 == cuenta_id then (p.1, applyUpdate p.2 update_data) else p) })
  else .error .storeError

/-- Modelled from app/repos/cuentas_repo.py `update_saldo`:
``return self.update(cuenta_id, {"saldo": nuevo_saldo})``. -/
def update_saldo (s : ServiceState) (cuenta_id : String) (nuevo_saldo : ℚ) :
    Except ApiError (Bool × ServiceState) :=
  update s cuenta_id { tipo := none, estado := none, saldo := some nuevo_saldo }

/-- Modelled from app/repos/cuentas_repo.py `cambiar_estado`:
``return self.update(cuenta_id, {"estado": estado_value})``. -/
def cambiar_estado (s : ServiceState) (cuenta_id : String) (nuevo_estado : EstadoCuenta) :
    Except ApiError (Bool × ServiceState) :=
  update s cuenta_id { tipo := none, estado := some nuevo_estado, saldo := none }

/-- Modelled from app/repos/cuentas_repo.py `delete` (soft delete):
``return self.cambiar_estado(cuenta_id, EstadoCuenta.CERRADA)``. -/
def deleteCuenta (s : ServiceState) (cuenta_id : String) :
    Except ApiError (Bool × ServiceState) :=
  cambiar_estado s cuenta_id EstadoCuenta.CERRADA

/-- Modelled from app/repos/cuentas_repo.py `crear_movimiento`: append the
movement document, return its store-assigned id. -/
def crear_movimiento (s : ServiceState) (movimiento : Movimiento) :
    String × ServiceState :=
  ("mov" ++ toString s.movimientos.length,
   { s with movimientos := s.movimientos ++ [movimiento] })

end CuentasRepository

namespace CuentasService

open CuentasRepository

/-- Modelled from app/services/cuentas_service.py `obtener_cuenta`: 404 when
the account does not exist. -/
def obtener_cuenta (s : ServiceState) (cuenta_id : String) : Except ApiError Cuenta :=
  match get_by_id s cuenta_id with
  | none => .error (.cuentaNoEncontrada cuenta_id)
  | some cuenta => .ok cuenta

/-- Modelled from app/services/cuentas_service.py `crear_cuenta`: build the
Cuenta in state ACTIVA with saldo = saldo_inicial, persist it via the
repository (which assigns the numero_cuenta), and when saldo_inicial > 0
record the initial DEPOSITO movement. -/
def crear_cuenta (rng : ℕ → ℕ) (fuel k : ℕ) (s : ServiceState)
    (cuenta_data : CuentaCreate) : Option (Option Cuenta × ServiceState) :=
  let nueva_cuenta : Cuenta :=
    { cliente_id := cuenta_data.cliente_id
      tipo := cuenta_data.tipo
      moneda := cuenta_data.moneda
      saldo := cuenta_data.saldo_inicial
      estado := EstadoCuenta.ACTIVA
      numero_cuenta := "" }
  match CuentasRepository.create rng fuel k s nueva_cuenta with
  | none => none
  | some (cuenta_id, s1) =>
    let cuenta_creada := get_by_id s1 cuenta_id
    if 0 < cuenta_data.saldo_inicial then
      let movimiento : Movimiento :=
        { cuenta_id := cuenta_id
          tipo := TipoMovimiento.DEPOSITO
          monto := cuenta_data.saldo_inicial
          saldo_anterior := 0
          saldo_nuevo := cuenta_data.saldo_inicial
          descripcion := "Depósito inicial - Apertura de cuenta"
          referencia := none }
      let r := crear_movimiento s1 movimiento
      some (cuenta_creada, r.2)
    else some (cuenta_creada, s1)

/-- Modelled from app/services/cuentas_service.py `actualizar_cuenta`: fetch
(404 if absent), then if the update dict is non-empty delegate to
repo.update, and return get_by_id. -/
def actualizar_cuenta (s : ServiceState) (cuenta_id : String)
    (update_data : CuentaUpdate) : Except ApiError (Option Cuenta × ServiceState) := do
  let _cuenta ← obtener_cuenta s cuenta_id
  if update_data.tipo.isSome || update_data.estado.isSome then do
    let r ← CuentasRepository.update s cuenta_id
      { tipo := update_data.tipo, estado := update_data.estado, saldo := none }
    return (get_by_id r.2 cuenta_id, r.2)
  else
    return (get_by_id s cuenta_id, s)

/-- Modelled from app/services/cuentas_service.py `depositar`: requires the
account to exist and be ACTIVA; new saldo = old + monto; persists the saldo
and appends one DEPOSITO movement. -/
def depositar (s : ServiceState) (cuenta_id : String) (deposito : DepositoRequest) :
    Except ApiError (OperacionResponse × ServiceState) := do
  let cuenta ← obtener_cuenta s cuenta_id
  if cuenta.estado ≠ EstadoCuenta.ACTIVA then
    throw (ApiError.estadoInvalido cuenta.estado)
  else
    let saldo_anterior := cuenta.saldo
    let saldo_nuevo := saldo_anterior + deposito.monto
    let r ← update_saldo s cuenta_id saldo_nuevo
    let movimiento : Movimiento :=
      { cuenta_id := cuenta_id
        tipo := TipoMovimiento.DEPOSITO
        monto := deposito.monto
        saldo_anterior := saldo_anterior
        saldo_nuevo := saldo_nuevo
        descripcion := deposito.descripcion
        referencia := none }
    let rm := crear_movimiento r.2 movimiento
    return ({ success := true
              mensaje := "Depósito realizado exitosamente"
              cuenta_id := cuenta_id
              saldo_anterior := saldo_anterior
              saldo_nuevo := saldo_nuevo
              monto := deposito.monto
              movimiento_id := some rm.1 }, rm.2)

/-- Modelled from app/services/cuentas_service.py `retirar`: requires the
account to exist and be ACTIVA and saldo ≥ monto (else 400 whose detail
carries the available saldo and the moneda); new saldo = old − monto;
appends one RETIRO movement. -/
def retirar (s : ServiceState) (cuenta_id : String) (retiro : RetiroRequest) :
    Except ApiError (OperacionResponse × ServiceState) := do
  let cuenta ← obtener_cuenta s cuenta_id
  if cuenta.estado ≠ EstadoCuenta.ACTIVA then
    throw (ApiError.estadoInvalido cuenta.estado)
  else if cuenta.saldo < retiro.monto then
    throw (ApiError.saldoInsuficiente cuenta.saldo cuenta.moneda)
  else
    let saldo_anterior := cuenta.saldo
    let saldo_nuevo := saldo_anterior - retiro.monto
    let r ← update_saldo s cuenta_id saldo_nuevo
    let movimiento : Movimiento :=
      { cuenta_id := cuenta_id
        tipo := TipoMovimiento.RETIRO
        monto := retiro.monto
        saldo_anterior := saldo_anterior
        saldo_nuevo := saldo_nuevo
        descripcion := retiro.descripcion
        referencia := none }
    let rm := crear_movimiento r.2 movimiento
    return ({ success := true
              mensaje := "Retiro realizado exitosamente"
              cuenta_id := cuenta_id
              saldo_anterior := saldo_anterior
              saldo_nuevo := saldo_nuevo
              monto := retiro.monto
              movimiento_id := some rm.1 }, rm.2)

/-- Modelled from app/services/cuentas_service.py `bloquear_cuenta`: fails
only when the account is already BLOQUEADA; otherwise sets BLOQUEADA and
returns get_by_id. -/
def bloquear_cuenta (s : ServiceState) (cuenta_id : String) :
    Except ApiError (Option Cuenta × ServiceState) := do
  let cuenta ← obtener_cuenta s cuenta_id
  if cuenta.estado = EstadoCuenta.BLOQUEADA then
    throw ApiError.yaBloqueada
  else
    let r ← cambiar_estado s cuenta_id EstadoCuenta.BLOQUEADA
    return (get_by_id r.2 cuenta_id, r.2)

/-- Modelled from app/services/cuentas_service.py `desbloquear_cuenta`:
fails unless the account is BLOQUEADA; otherwise sets ACTIVA. -/
def desbloquear_cuenta (s : ServiceState) (cuenta_id : String) :
    Except ApiError (Option Cuenta × ServiceState) := do
  let cuenta ← obtener_cuenta s cuenta_id
  if cuenta.estado ≠ EstadoCuenta.BLOQUEADA then
    throw ApiError.noBloqueada
  else
    let r ← cambiar_estado s cuenta_id EstadoCuenta.ACTIVA
    return (get_by_id r.2 cuenta_id, r.2)

/-- Modelled from app/services/cuentas_service.py `validar_saldo_disponible`:
false unless ACTIVA, else saldo ≥ monto; performs no write. -/
def validar_saldo_disponible (s : ServiceState) (cuenta_id : String) (monto : ℚ) :
    Except ApiError (Bool × ServiceState) := do
  let cuenta ← obtener_cuenta s cuenta_id
  if cuenta.estado ≠ EstadoCuenta.ACTIVA then
    return (false, s)
  else
    return (decide (monto ≤ cuenta.saldo), s)

/-- Modelled from app/services/cuentas_service.py `descontar_saldo`:
requires ACTIVA and saldo ≥ monto (no check that monto is positive); new
saldo = old − monto; appends one movement of the caller-chosen
tipo_movimiento (default in the source: RETIRO). -/
def descontar_saldo (s : ServiceState) (cuenta_id : String) (monto : ℚ)
    (descripcion : String) (tipo_movimiento : TipoMovimiento) :
    Except ApiError (OperacionResponse × ServiceState) := do
  let cuenta ← obtener_cuenta s cuenta_id
  if cuenta.estado ≠ EstadoCuenta.ACTIVA then
    throw ApiError.cuentaNoActiva
  else if cuenta.saldo < monto then
    throw ApiError.saldoInsuficienteSinDetalle
  else
    let saldo_anterior := cuenta.saldo
    let saldo_nuevo := saldo_anterior - monto
    let r ← update_saldo s cuenta_id saldo_nuevo
    let movimiento : Movimiento :=
      { cuenta_id := cuenta_id
        tipo := tipo_movimiento
        monto := monto
        saldo_anterior := saldo_anterior
        saldo_nuevo := saldo_nuevo
        descripcion := descripcion
        referencia := none }
    let rm := crear_movimiento r.2 movimiento
    return ({ success := true
              mensaje := "Descuento realizado exitosamente"
              cuenta_id := cuenta_id
              saldo_anterior := saldo_anterior
              saldo_nuevo := saldo_nuevo
              monto := monto
              movimiento_id := some rm.1 }, rm.2)

/-- Modelled from app/services/cuentas_service.py `acreditar_saldo`:
requires ACTIVA only (no amount check at all); new saldo = old + monto;
appends one movement of the caller-chosen tipo_movimiento (default in the
source: DEPOSITO). -/
def acreditar_saldo (s : ServiceState) (cuenta_id : String) (monto : ℚ)
    (descripcion : String) (tipo_movimiento : TipoMovimiento) :
    Except ApiError (OperacionResponse × ServiceState) := do
  let cuenta ← obtener_cuenta s cuenta_id
  if cuenta.estado ≠ EstadoCuenta.ACTIVA then
    throw ApiError.cuentaNoActiva
  else
    let saldo_anterior := cuenta.saldo
    let saldo_nuevo := saldo_anterior + monto
    let r ← update_saldo s cuenta_id saldo_nuevo
    let movimiento : Movimiento :=
      { cuenta_id := cuenta_id
        tipo := tipo_movimiento
        monto := monto
        saldo_anterior := saldo_anterior
        saldo_nuevo := saldo_nuevo
        descripcion := descripcion
        referencia := none }
    let rm := crear_movimiento r.2 movimiento
    return ({ success := true
              mensaje := "Acreditación realizada exitosamente"
              cuenta_id := cuenta_id
              saldo_anterior := saldo_anterior
              saldo_nuevo := saldo_nuevo
              monto := monto
              movimiento_id := some rm.1 }, rm.2)

end CuentasService

/-- One balance-mutating call of the service on a fixed account: deposit,
withdraw, or a cross-service debit/credit with its tipo_movimiento
argument. -/
inductive Op where
  | depositar (req : DepositoRequest)
  | retirar (req : RetiroRequest)
  | descontar (monto : ℚ) (descripcion : String) (tipo : TipoMovimiento)
  | acreditar (monto : ℚ) (descripcion : String) (tipo : TipoMovimiento)
  deriving DecidableEq, Repr

/-- Executing one call against the current store. -/
def runOp (s : ServiceState) (cuenta_id : String) :
    Op → Except ApiError (OperacionResponse × ServiceState)
  | .depositar req => CuentasService.depositar s cuenta_id req
  | .retirar req => CuentasService.retirar s cuenta_id req
  | .descontar monto d t => CuentasService.descontar_saldo s cuenta_id monto d t
  | .acreditar monto d t => CuentasService.acreditar_saldo s cuenta_id monto d t

/-- Executing a sequence of calls against the same account; succeeds only
when every call succeeds (sequential execution, no interleaving). -/
def runOps (cuenta_id : String) : List Op → ServiceState → Except ApiError ServiceState
  | [], s => .ok s
  | op :: ops, s => do
    let r ← runOp s cuenta_id op
    runOps cuenta_id ops r.2

/-- Movement kinds whose sign convention is +monto; the remaining kinds
(RETIRO, TRANSFERENCIA_SALIDA, PAGO_SERVICIO) carry −monto. -/
def esCredito : TipoMovimiento → Bool
  | .DEPOSITO => true
  | .TRANSFERENCIA_ENTRADA => true
  | .RETIRO => false
  | .TRANSFERENCIA_SALIDA => false
  | TipoMovimiento.PAGO_SERVICIO => false

/-- Signed amount of a movement under the kind sign convention. -/
def montoNeto (m : Movimiento) : ℚ :=
  if esCredito m.tipo then m.monto else -m.monto

/-- The per-movement ledger invariant: balance-after − balance-before equals
+monto for credit kinds and −monto for debit kinds. -/
def movimientoConsistente (m : Movimiento) : Prop :=
  m.saldo_nuevo - m.saldo_anterior = montoNeto m

instance (m : Movimiento) : Decidable (movimientoConsistente m) := by
  unfold movimientoConsistente
  infer_instance

/-- Sum of the amounts of the account's movements of credit kind
(DEPOSITO, TRANSFERENCIA_ENTRADA). -/
def sumaCreditos (cuenta_id : String) (ms : List Movimiento) : ℚ :=
  ((ms.filter (fun m => m.cuenta_id == cuenta_id && esCredito m.tipo)).map
    Movimiento.monto).sum

/-- Sum of the amounts of the account's movements of debit kind
(RETIRO, TRANSFERENCIA_SALIDA, PAGO_SERVICIO). -/
def sumaDebitos (cuenta_id : String) (ms : List Movimiento) : ℚ :=
  ((ms.filter (fun m => m.cuenta_id == cuenta_id && !esCredito m.tipo)).map
    Movimiento.monto).sum

/-- Balance of the account in the store (0 when absent). -/
def saldoOf (s : ServiceState) (cuenta_id : String) : ℚ :=
  ((CuentasRepository.get_by_id s cuenta_id).map Cuenta.saldo).getD 0

/-- A call whose movement-kind matches the direction of its balance change:
the kind argument of a debit is a debit kind, that of a credit a credit
kind (deposit and withdraw fix their kinds in the source). -/
def opBienTipada : Op → Bool
  | .depositar _ => true
  | .retirar _ => true
  | .descontar _ _ t => !esCredito t
  | .acreditar _ _ t => esCredito t

section Lemmas

open CuentasRepository CuentasService

/-- Updating the document with a given key commutes with find? on that key. -/
theorem find?_map_update (l : List (String × Cuenta)) (cuenta_id : String) (u : UpdateData) :
    (l.map (fun p => if p.1 == cuenta_id then (p.1, applyUpdate p.2 u) else p)).find?
        (fun p => p.1 == cuenta_id)
      = (l.find? (fun p => p.1 == cuenta_id)).map
          (fun p => if p.1 == cuenta_id then (p.1, applyUpdate p.2 u) else p) := by
  rw [List.find?_map]
  have hfun : ((fun p => p.1 == cuenta_id) ∘ fun p : String × Cuenta =>
      if p.1 == cuenta_id then (p.1, applyUpdate p.2 u) else p) = fun p => p.1 == cuenta_id := by
    funext p
    by_cases h : p.1 = cuenta_id
    · simp [h]
    · simp [h]
  rw [hfun]

/-- applyUpdate writing only the saldo field. -/
theorem applyUpdate_saldo (c : Cuenta) (v : ℚ) :
    applyUpdate c { tipo := none, estado := none, saldo := some v } = { c with saldo := v } :=
  rfl

/-- applyUpdate writing only the estado field. -/
theorem applyUpdate_estado (c : Cuenta) (e : EstadoCuenta) :
    applyUpdate c { tipo := none, estado := some e, saldo := none } = { c with estado := e } :=
  rfl

/-- State produced by a successful repo update. -/
def updCuentas (s : ServiceState) (cuenta_id : String) (u : UpdateData) : ServiceState :=
  { s with cuentas :=
      s.cuentas.map (fun p => if p.1 == cuenta_id then (p.1, applyUpdate p.2 u) else p) }

/-- Successful repo update: when the document exists, `update` returns True,
rewrites exactly that document, and leaves the movements untouched. -/
theorem update_ok (s : ServiceState) (cuenta_id : String) (c : Cuenta) (u : UpdateData)
    (hget : get_by_id s cuenta_id = some c) :
    ∃ s1, CuentasRepository.update s cuenta_id u = .ok (true, s1) ∧
      get_by_id s1 cuenta_id = some (applyUpdate c u) ∧
      s1.movimientos = s.movimientos := by
  have hsome : (get_by_id s cuenta_id).isSome = true := by rw [hget]; rfl
  refine ⟨updCuentas s cuenta_id u, ?_, ?_, rfl⟩
  · simp [CuentasRepository.update, hsome, updCuentas]
  · unfold get_by_id at hget
    unfold get_by_id updCuentas
    dsimp only
    rw [find?_map_update]
    cases hf : s.cuentas.find? (fun p => p.1 == cuenta_id) with
    | none => rw [hf] at hget; simp at hget
    | some pr =>
      rw [hf] at hget
      have hq : (pr.1 == cuenta_id) = true := by simpa using List.find?_some hf
      simp only [Option.map_some', hq, if_pos, Option.map_map]
      simp only [Option.map_some'] at hget
      have hc : pr.2 = c := by injection hget
      rw [hc]

/-- The update dict written by `update_saldo`. -/
def saldoUpdate (v : ℚ) : UpdateData :=
  { tipo := none, estado := none, saldo := some v }

/-- The update dict written by `cambiar_estado`. -/
def estadoUpdate (e : EstadoCuenta) : UpdateData :=
  { tipo := none, estado := some e, saldo := none }

/-- State after appending one movement document. -/
def afterMovimiento (s : ServiceState) (m : Movimiento) : ServiceState :=
  (crear_movimiento s m).2

/-- Repo update evaluated on an existing document. -/
theorem update_eq_ok (s : ServiceState) (cuenta_id : String) (u : UpdateData)
    (hsome : (get_by_id s cuenta_id).isSome = true) :
    CuentasRepository.update s cuenta_id u = .ok (true, updCuentas s cuenta_id u) := by
  simp [CuentasRepository.update, hsome, updCuentas]

/-- Lookup of the updated document after updCuentas. -/
theorem get_by_id_updCuentas (s : ServiceState) (cuenta_id : String) (c : Cuenta)
    (u : UpdateData) (hget : get_by_id s cuenta_id = some c) :
    get_by_id (updCuentas s cuenta_id u) cuenta_id = some (applyUpdate c u) := by
  obtain ⟨s1, hu, hg1, _⟩ := update_ok s cuenta_id c u hget
  have hsome : (get_by_id s cuenta_id).isSome = true := by rw [hget]; rfl
  rw [update_eq_ok s cuenta_id u hsome] at hu
  have hp := Except.ok.inj hu
  have hs1 : s1 = updCuentas s cuenta_id u := (Prod.ext_iff.mp hp).2.symm
  rw [← hs1]
  exact hg1

/-- Lookup of a different state component is unaffected by crear_movimiento. -/
theorem get_by_id_afterMovimiento (s : ServiceState) (m : Movimiento) (cuenta_id : String) :
    get_by_id (afterMovimiento s m) cuenta_id = get_by_id s cuenta_id := rfl

/-- Movements after crear_movimiento. -/
theorem movimientos_afterMovimiento (s : ServiceState) (m : Movimiento) :
    (afterMovimiento s m).movimientos = s.movimientos ++ [m] := rfl

/-- Movement record a successful deposit appends. -/
def movDeposito (cuenta_id : String) (req : DepositoRequest) (saldo : ℚ) : Movimiento :=
  { cuenta_id := cuenta_id, tipo := TipoMovimiento.DEPOSITO, monto := req.monto,
    saldo_anterior := saldo, saldo_nuevo := saldo + req.monto,
    descripcion := req.descripcion, referencia := none }

/-- Evaluation of `depositar` on an existing ACTIVA account: persists
saldo + monto and appends one DEPOSITO movement. -/
theorem depositar_eq (s : ServiceState) (cuenta_id : String) (req : DepositoRequest)
    (c : Cuenta) (hget : get_by_id s cuenta_id = some c)
    (hA : c.estado = EstadoCuenta.ACTIVA) :
    depositar s cuenta_id req = .ok
      ({ success := true, mensaje := "Depósito realizado exitosamente",
         cuenta_id := cuenta_id, saldo_anterior := c.saldo,
         saldo_nuevo := c.saldo + req.monto, monto := req.monto,
         movimiento_id := some ("mov" ++ toString s.movimientos.length) },
       afterMovimiento (updCuentas s cuenta_id (saldoUpdate (c.saldo + req.monto)))
         (movDeposito cuenta_id req c.saldo)) := by
  have hsome : (get_by_id s cuenta_id).isSome = true := by rw [hget]; rfl
  unfold depositar obtener_cuenta update_saldo
  rw [hget]
  have hupd := update_eq_ok s cuenta_id (saldoUpdate (c.saldo + req.monto)) hsome
  unfold saldoUpdate at hupd
  simp only [bind, Except.bind, hA, hupd]
  simp [afterMovimiento, crear_movimiento, movDeposito, updCuentas, saldoUpdate, pure,
    Except.pure]

/-- Deposit against a missing account: 404. -/
theorem depositar_absent (s : ServiceState) (cuenta_id : String) (req : DepositoRequest)
    (hget : get_by_id s cuenta_id = none) :
    depositar s cuenta_id req = .error (.cuentaNoEncontrada cuenta_id) := by
  unfold depositar obtener_cuenta
  rw [hget]
  rfl

/-- Deposit against a non-ACTIVA account: 400 carrying the estado. -/
theorem depositar_no_activa (s : ServiceState) (cuenta_id : String) (req : DepositoRequest)
    (c : Cuenta) (hget : get_by_id s cuenta_id = some c)
    (hA : c.estado ≠ EstadoCuenta.ACTIVA) :
    depositar s cuenta_id req = .error (.estadoInvalido c.estado) := by
  unfold depositar obtener_cuenta
  rw [hget]
  simp [bind, Except.bind, hA, throw, throwThe, MonadExceptOf.throw]

/-- Movement record a successful withdrawal appends. -/
def movRetiro (cuenta_id : String) (req : RetiroRequest) (saldo : ℚ) : Movimiento :=
  { cuenta_id := cuenta_id, tipo := TipoMovimiento.RETIRO, monto := req.monto,
    saldo_anterior := saldo, saldo_nuevo := saldo - req.monto,
    descripcion := req.descripcion, referencia := none }

/-- Evaluation of `retirar` on an existing ACTIVA account with sufficient
saldo: persists saldo − monto and appends one RETIRO movement. -/
theorem retirar_eq (s : ServiceState) (cuenta_id : String) (req : RetiroRequest)
    (c : Cuenta) (hget : get_by_id s cuenta_id = some c)
    (hA : c.estado = EstadoCuenta.ACTIVA) (hs : req.monto ≤ c.saldo) :
    retirar s cuenta_id req = .ok
      ({ success := true, mensaje := "Retiro realizado exitosamente",
         cuenta_id := cuenta_id, saldo_anterior := c.saldo,
         saldo_nuevo := c.saldo - req.monto, monto := req.monto,
         movimiento_id := some ("mov" ++ toString s.movimientos.length) },
       afterMovimiento (updCuentas s cuenta_id (saldoUpdate (c.saldo - req.monto)))
         (movRetiro cuenta_id req c.saldo)) := by
  have hsome : (get_by_id s cuenta_id).isSome = true := by rw [hget]; rfl
  have hlt : ¬ c.saldo < req.monto := not_lt.mpr hs
  unfold retirar obtener_cuenta update_saldo
  rw [hget]
  have hupd := update_eq_ok s cuenta_id (saldoUpdate (c.saldo - req.monto)) hsome
  unfold saldoUpdate at hupd
  simp only [bind, Except.bind, hA, hlt, hupd]
  simp [afterMovimiento, crear_movimiento, movRetiro, updCuentas, saldoUpdate, pure,
    Except.pure, hlt]

/-- Withdrawal against a missing account: 404. -/
theorem retirar_absent (s : ServiceState) (cuenta_id : String) (req : RetiroRequest)
    (hget : get_by_id s cuenta_id = none) :
    retirar s cuenta_id req = .error (.cuentaNoEncontrada cuenta_id) := by
  unfold retirar obtener_cuenta
  rw [hget]
  rfl

/-- Withdrawal against a non-ACTIVA account: 400 carrying the estado. -/
theorem retirar_no_activa (s : ServiceState) (cuenta_id : String) (req : RetiroRequest)
    (c : Cuenta) (hget : get_by_id s cuenta_id = some c)
    (hA : c.estado ≠ EstadoCuenta.ACTIVA) :
    retirar s cuenta_id req = .error (.estadoInvalido c.estado) := by
  unfold retirar obtener_cuenta
  rw [hget]
  simp [bind, Except.bind, hA, throw, throwThe, MonadExceptOf.throw]

/-- Withdrawal exceeding the saldo: 400 whose detail carries the available
saldo and the moneda; no write occurs. -/
theorem retirar_insuficiente (s : ServiceState) (cuenta_id : String) (req : RetiroRequest)
    (c : Cuenta) (hget : get_by_id s cuenta_id = some c)
    (hA : c.estado = EstadoCuenta.ACTIVA) (hs : c.saldo < req.monto) :
    retirar s cuenta_id req = .error (.saldoInsuficiente c.saldo c.moneda) := by
  unfold retirar obtener_cuenta
  rw [hget]
  simp [bind, Except.bind, hA, hs, throw, throwThe, MonadExceptOf.throw]

/-- Movement record a successful cross-service debit appends. -/
def movDescuento (cuenta_id : String) (monto : ℚ) (descripcion : String)
    (tipo : TipoMovimiento) (saldo : ℚ) : Movimiento :=
  { cuenta_id := cuenta_id, tipo := tipo, monto := monto,
    saldo_anterior := saldo, saldo_nuevo := saldo - monto,
    descripcion := descripcion, referencia := none }

/-- Evaluation of `descontar_saldo` on an existing ACTIVA account with
saldo ≥ monto (the source checks nothing else, in particular not that the
monto is positive): persists saldo − monto and appends one movement of the
caller-chosen kind. -/
theorem descontar_saldo_eq (s : ServiceState) (cuenta_id : String) (monto : ℚ)
    (descripcion : String) (tipo : TipoMovimiento) (c : Cuenta)
    (hget : get_by_id s cuenta_id = some c)
    (hA : c.estado = EstadoCuenta.ACTIVA) (hs : monto ≤ c.saldo) :
    descontar_saldo s cuenta_id monto descripcion tipo = .ok
      ({ success := true, mensaje := "Descuento realizado exitosamente",
         cuenta_id := cuenta_id, saldo_anterior := c.saldo,
         saldo_nuevo := c.saldo - monto, monto := monto,
         movimiento_id := some ("mov" ++ toString s.movimientos.length) },
       afterMovimiento (updCuentas s cuenta_id (saldoUpdate (c.saldo - monto)))
         (movDescuento cuenta_id monto descripcion tipo c.saldo)) := by
  have hsome : (get_by_id s cuenta_id).isSome = true := by rw [hget]; rfl
  have hlt : ¬ c.saldo < monto := not_lt.mpr hs
  unfold descontar_saldo obtener_cuenta update_saldo
  rw [hget]
  have hupd := update_eq_ok s cuenta_id (saldoUpdate (c.saldo - monto)) hsome
  unfold saldoUpdate at hupd
  simp only [bind, Except.bind, hA, hlt, hupd]
  simp [afterMovimiento, crear_movimiento, movDescuento, updCuentas, saldoUpdate, pure,
    Except.pure, hlt]

/-- Debit against a missing account: 404. -/
theorem descontar_saldo_absent (s : ServiceState) (cuenta_id : String) (monto : ℚ)
    (descripcion : String) (tipo : TipoMovimiento)
    (hget : get_by_id s cuenta_id = none) :
    descontar_saldo s cuenta_id monto descripcion tipo =
      .error (.cuentaNoEncontrada cuenta_id) := by
  unfold descontar_saldo obtener_cuenta
  rw [hget]
  rfl

/-- Debit against a non-ACTIVA account: 400. -/
theorem descontar_saldo_no_activa (s : ServiceState) (cuenta_id : String) (monto : ℚ)
    (descripcion : String) (tipo : TipoMovimiento) (c : Cuenta)
    (hget : get_by_id s cuenta_id = some c)
    (hA : c.estado ≠ EstadoCuenta.ACTIVA) :
    descontar_saldo s cuenta_id monto descripcion tipo = .error .cuentaNoActiva := by
  unfold descontar_saldo obtener_cuenta
  rw [hget]
  simp [bind, Except.bind, hA, throw, throwThe, MonadExceptOf.throw]

/-- Debit exceeding the saldo: 400 with a bare detail. -/
theorem descontar_saldo_insuficiente (s : ServiceState) (cuenta_id : String) (monto : ℚ)
    (descripcion : String) (tipo : TipoMovimiento) (c : Cuenta)
    (hget : get_by_id s cuenta_id = some c)
    (hA : c.estado = EstadoCuenta.ACTIVA) (hs : c.saldo < monto) :
    descontar_saldo s cuenta_id monto descripcion tipo =
      .error .saldoInsuficienteSinDetalle := by
  unfold descontar_saldo obtener_cuenta
  rw [hget]
  simp [bind, Except.bind, hA, hs, throw, throwThe, MonadExceptOf.throw]

/-- Movement record a successful cross-service credit appends. -/
def movAcreditacion (cuenta_id : String) (monto : ℚ) (descripcion : String)
    (tipo : TipoMovimiento) (saldo : ℚ) : Movimiento :=
  { cuenta_id := cuenta_id, tipo := tipo, monto := monto,
    saldo_anterior := saldo, saldo_nuevo := saldo + monto,
    descripcion := descripcion, referencia := none }

/-- Evaluation of `acreditar_saldo` on an existing ACTIVA account (the
source checks nothing about the monto): persists saldo + monto and appends
one movement of the caller-chosen kind. -/
theorem acreditar_saldo_eq (s : ServiceState) (cuenta_id : String) (monto : ℚ)
    (descripcion : String) (tipo : TipoMovimiento) (c : Cuenta)
    (hget : get_by_id s cuenta_id = some c)
    (hA : c.estado = EstadoCuenta.ACTIVA) :
    acreditar_saldo s cuenta_id monto descripcion tipo = .ok
      ({ success := true, mensaje := "Acreditación realizada exitosamente",
         cuenta_id := cuenta_id, saldo_anterior := c.saldo,
         saldo_nuevo := c.saldo + monto, monto := monto,
         movimiento_id := some ("mov" ++ toString s.movimientos.length) },
       afterMovimiento (updCuentas s cuenta_id (saldoUpdate (c.saldo + monto)))
         (movAcreditacion cuenta_id monto descripcion tipo c.saldo)) := by
  have hsome : (get_by_id s cuenta_id).isSome = true := by rw [hget]; rfl
  unfold acreditar_saldo obtener_cuenta update_saldo
  rw [hget]
  have hupd := update_eq_ok s cuenta_id (saldoUpdate (c.saldo + monto)) hsome
  unfold saldoUpdate at hupd
  simp only [bind, Except.bind, hA, hupd]
  simp [afterMovimiento, crear_movimiento, movAcreditacion, updCuentas, saldoUpdate, pure,
    Except.pure]

/-- Credit against a missing account: 404. -/
theorem acreditar_saldo_absent (s : ServiceState) (cuenta_id : String) (monto : ℚ)
    (descripcion : String) (tipo : TipoMovimiento)
    (hget : get_by_id s cuenta_id = none) :
    acreditar_saldo s cuenta_id monto descripcion tipo =
      .error (.cuentaNoEncontrada cuenta_id) := by
  unfold acreditar_saldo obtener_cuenta
  rw [hget]
  rfl

/-- Credit against a non-ACTIVA account: 400. -/
theorem acreditar_saldo_no_activa (s : ServiceState) (cuenta_id : String) (monto : ℚ)
    (descripcion : String) (tipo : TipoMovimiento) (c : Cuenta)
    (hget : get_by_id s cuenta_id = some c)
    (hA : c.estado ≠ EstadoCuenta.ACTIVA) :
    acreditar_saldo s cuenta_id monto descripcion tipo = .error .cuentaNoActiva := by
  unfold acreditar_saldo obtener_cuenta
  rw [hget]
  simp [bind, Except.bind, hA, throw, throwThe, MonadExceptOf.throw]

/-- Evaluation of `bloquear_cuenta`: the source rejects only an account that
is already BLOQUEADA; any other existing account (ACTIVA or CERRADA) is set
to BLOQUEADA. -/
theorem bloquear_cuenta_eq (s : ServiceState) (cuenta_id : String) (c : Cuenta)
    (hget : get_by_id s cuenta_id = some c)
    (hB : c.estado ≠ EstadoCuenta.BLOQUEADA) :
    bloquear_cuenta s cuenta_id = .ok
      (some { c with estado := EstadoCuenta.BLOQUEADA },
       updCuentas s cuenta_id (estadoUpdate EstadoCuenta.BLOQUEADA)) := by
  have hsome : (get_by_id s cuenta_id).isSome = true := by rw [hget]; rfl
  have hupd := update_eq_ok s cuenta_id (estadoUpdate EstadoCuenta.BLOQUEADA) hsome
  have hg := get_by_id_updCuentas s cuenta_id c (estadoUpdate EstadoCuenta.BLOQUEADA) hget
  unfold bloquear_cuenta obtener_cuenta cambiar_estado
  rw [hget]
  unfold estadoUpdate at hupd hg
  simp only [bind, Except.bind, hB, hupd]
  simp [pure, Except.pure, hg, applyUpdate_estado, estadoUpdate]

/-- Blocking an already BLOQUEADA account: 400. -/
theorem bloquear_cuenta_ya_bloqueada (s : ServiceState) (cuenta_id : String) (c : Cuenta)
    (hget : get_by_id s cuenta_id = some c)
    (hB : c.estado = EstadoCuenta.BLOQUEADA) :
    bloquear_cuenta s cuenta_id = .error .yaBloqueada := by
  unfold bloquear_cuenta obtener_cuenta
  rw [hget]
  simp [bind, Except.bind, hB, throw, throwThe, MonadExceptOf.throw]

/-- Evaluation of `desbloquear_cuenta` on a BLOQUEADA account: sets ACTIVA. -/
theorem desbloquear_cuenta_eq (s : ServiceState) (cuenta_id : String) (c : Cuenta)
    (hget : get_by_id s cuenta_id = some c)
    (hB : c.estado = EstadoCuenta.BLOQUEADA) :
    desbloquear_cuenta s cuenta_id = .ok
      (some { c with estado := EstadoCuenta.ACTIVA },
       updCuentas s cuenta_id (estadoUpdate EstadoCuenta.ACTIVA)) := by
  have hsome : (get_by_id s cuenta_id).isSome = true := by rw [hget]; rfl
  have hupd := update_eq_ok s cuenta_id (estadoUpdate EstadoCuenta.ACTIVA) hsome
  have hg := get_by_id_updCuentas s cuenta_id c (estadoUpdate EstadoCuenta.ACTIVA) hget
  unfold desbloquear_cuenta obtener_cuenta cambiar_estado
  rw [hget]
  unfold estadoUpdate at hupd hg
  simp only [bind, Except.bind, hB, hupd]
  simp [pure, Except.pure, hg, applyUpdate_estado, estadoUpdate]

/-- Unblocking an account that is not BLOQUEADA: 400. -/
theorem desbloquear_cuenta_no_bloqueada (s : ServiceState) (cuenta_id : String) (c : Cuenta)
    (hget : get_by_id s cuenta_id = some c)
    (hB : c.estado ≠ EstadoCuenta.BLOQUEADA) :
    desbloquear_cuenta s cuenta_id = .error .noBloqueada := by
  unfold desbloquear_cuenta obtener_cuenta
  rw [hget]
  simp [bind, Except.bind, hB, throw, throwThe, MonadExceptOf.throw]

/-- Evaluation of `actualizar_cuenta` setting only the estado field: the
stored document's estado becomes the requested value, whatever it was. -/
theorem actualizar_cuenta_estado_eq (s : ServiceState) (cuenta_id : String) (c : Cuenta)
    (e : EstadoCuenta) (hget : get_by_id s cuenta_id = some c) :
    actualizar_cuenta s cuenta_id { tipo := none, estado := some e } = .ok
      (some { c with estado := e }, updCuentas s cuenta_id (estadoUpdate e)) := by
  have hsome : (get_by_id s cuenta_id).isSome = true := by rw [hget]; rfl
  have hupd := update_eq_ok s cuenta_id (estadoUpdate e) hsome
  have hg := get_by_id_updCuentas s cuenta_id c (estadoUpdate e) hget
  unfold actualizar_cuenta obtener_cuenta
  rw [hget]
  unfold estadoUpdate at hupd hg
  simp only [bind, Except.bind, hupd]
  simp [pure, Except.pure, hg, applyUpdate_estado, estadoUpdate]

/-- Evaluation of `validar_saldo_disponible` on an existing account: pure
query, the input state is returned untouched, the answer is saldo ≥ monto
when ACTIVA and false otherwise, and no error is raised. -/
theorem validar_saldo_disponible_eq (s : ServiceState) (cuenta_id : String) (monto : ℚ)
    (c : Cuenta) (hget : get_by_id s cuenta_id = some c) :
    validar_saldo_disponible s cuenta_id monto = .ok
      ((if c.estado = EstadoCuenta.ACTIVA then decide (monto ≤ c.saldo) else false), s) := by
  unfold validar_saldo_disponible obtener_cuenta
  rw [hget]
  by_cases hA : c.estado = EstadoCuenta.ACTIVA
  · simp [bind, Except.bind, hA, pure, Except.pure]
  · simp [bind, Except.bind, hA, pure, Except.pure]

/-- saldoOf evaluated on an existing account. -/
theorem saldoOf_eq (s : ServiceState) (cuenta_id : String) (c : Cuenta)
    (hget : get_by_id s cuenta_id = some c) : saldoOf s cuenta_id = c.saldo := by
  simp [saldoOf, hget]

/-- saldoOf after a balance write followed by a movement append. -/
theorem saldoOf_after_update (s : ServiceState) (cuenta_id : String) (c : Cuenta)
    (v : ℚ) (m : Movimiento) (hget : get_by_id s cuenta_id = some c) :
    saldoOf (afterMovimiento (updCuentas s cuenta_id (saldoUpdate v)) m) cuenta_id = v := by
  unfold saldoOf
  rw [get_by_id_afterMovimiento, get_by_id_updCuentas s cuenta_id c _ hget]
  simp [applyUpdate, saldoUpdate]

/-- One successful, direction-consistent call appends exactly one movement
of the account, that movement satisfies the sign invariant, and the
account's balance moves by the movement's signed amount. -/
theorem runOp_ok_spec (s : ServiceState) (cuenta_id : String) (op : Op)
    (r : OperacionResponse × ServiceState)
    (hty : opBienTipada op = true)
    (h : runOp s cuenta_id op = .ok r) :
    ∃ m, r.2.movimientos = s.movimientos ++ [m] ∧ m.cuenta_id = cuenta_id ∧
      movimientoConsistente m ∧
      saldoOf r.2 cuenta_id = saldoOf s cuenta_id + montoNeto m := by
  cases op with
  | depositar req =>
    simp only [runOp] at h
    cases hget : get_by_id s cuenta_id with
    | none => rw [depositar_absent s cuenta_id req hget] at h; cases h
    | some c =>
      by_cases hA : c.estado = EstadoCuenta.ACTIVA
      · rw [depositar_eq s cuenta_id req c hget hA] at h
        have hr := (Except.ok.inj h).symm
        refine ⟨movDeposito cuenta_id req c.saldo, ?_, rfl, ?_, ?_⟩
        · rw [hr]; rfl
        · simp [movimientoConsistente, montoNeto, movDeposito, esCredito]
        · rw [hr]
          rw [saldoOf_after_update s cuenta_id c _ _ hget, saldoOf_eq s cuenta_id c hget]
          simp [montoNeto, movDeposito, esCredito]
      · rw [depositar_no_activa s cuenta_id req c hget hA] at h; cases h
  | retirar req =>
    simp only [runOp] at h
    cases hget : get_by_id s cuenta_id with
    | none => rw [retirar_absent s cuenta_id req hget] at h; cases h
    | some c =>
      by_cases hA : c.estado = EstadoCuenta.ACTIVA
      · by_cases hlt : c.saldo < req.monto
        · rw [retirar_insuficiente s cuenta_id req c hget hA hlt] at h; cases h
        · rw [retirar_eq s cuenta_id req c hget hA (not_lt.mp hlt)] at h
          have hr := (Except.ok.inj h).symm
          refine ⟨movRetiro cuenta_id req c.saldo, ?_, rfl, ?_, ?_⟩
          · rw [hr]; rfl
          · simp [movimientoConsistente, montoNeto, movRetiro, esCredito]
          · rw [hr]
            rw [saldoOf_after_update s cuenta_id c _ _ hget, saldoOf_eq s cuenta_id c hget]
            simp [montoNeto, movRetiro, esCredito]
            ring
      · rw [retirar_no_activa s cuenta_id req c hget hA] at h; cases h
  | descontar monto d t =>
    have hcred : esCredito t = false := by
      simpa [opBienTipada] using hty
    simp only [runOp] at h
    cases hget : get_by_id s cuenta_id with
    | none => rw [descontar_saldo_absent s cuenta_id monto d t hget] at h; cases h
    | some c =>
      by_cases hA : c.estado = EstadoCuenta.ACTIVA
      · by_cases hlt : c.saldo < monto
        · rw [descontar_saldo_insuficiente s cuenta_id monto d t c hget hA hlt] at h
          cases h
        · rw [descontar_saldo_eq s cuenta_id monto d t c hget hA (not_lt.mp hlt)] at h
          have hr := (Except.ok.inj h).symm
          refine ⟨movDescuento cuenta_id monto d t c.saldo, ?_, rfl, ?_, ?_⟩
          · rw [hr]; rfl
          · simp [movimientoConsistente, montoNeto, movDescuento, hcred]
          · rw [hr]
            rw [saldoOf_after_update s cuenta_id c _ _ hget, saldoOf_eq s cuenta_id c hget]
            simp [montoNeto, movDescuento, hcred]
            ring
      · rw [descontar_saldo_no_activa s cuenta_id monto d t c hget hA] at h; cases h
  | acreditar monto d t =>
    have hcred : esCredito t = true := by
      simpa [opBienTipada] using hty
    simp only [runOp] at h
    cases hget : get_by_id s cuenta_id with
    | none => rw [acreditar_saldo_absent s cuenta_id monto d t hget] at h; cases h
    | some c =>
      by_cases hA : c.estado = EstadoCuenta.ACTIVA
      · rw [acreditar_saldo_eq s cuenta_id monto d t c hget hA] at h
        have hr := (Except.ok.inj h).symm
        refine ⟨movAcreditacion cuenta_id monto d t c.saldo, ?_, rfl, ?_, ?_⟩
        · rw [hr]; rfl
        · simp [movimientoConsistente, montoNeto, movAcreditacion, hcred]
        · rw [hr]
          rw [saldoOf_after_update s cuenta_id c _ _ hget, saldoOf_eq s cuenta_id c hget]
          simp [montoNeto, movAcreditacion, hcred]
      · rw [acreditar_saldo_no_activa s cuenta_id monto d t c hget hA] at h; cases h

/-- Net contribution of one movement of the account to the credit/debit sums. -/
theorem sumas_cons (cuenta_id : String) (m : Movimiento) (delta : List Movimiento)
    (hm : m.cuenta_id = cuenta_id) :
    sumaCreditos cuenta_id (m :: delta) - sumaDebitos cuenta_id (m :: delta)
      = montoNeto m + (sumaCreditos cuenta_id delta - sumaDebitos cuenta_id delta) := by
  by_cases hc : esCredito m.tipo
  · simp [sumaCreditos, sumaDebitos, montoNeto, List.filter_cons, hm, hc]
    ring
  · simp [sumaCreditos, sumaDebitos, montoNeto, List.filter_cons, hm, hc]
    ring

/-- Running a direction-consistent sequence of successful calls appends a
block of movements of the account, each satisfying the sign invariant, and
the final balance is the starting balance plus the credit sum minus the
debit sum of the appended block. -/
theorem runOps_spec (cuenta_id : String) (ops : List Op) :
    ∀ s s', (∀ op ∈ ops, opBienTipada op = true) → runOps cuenta_id ops s = .ok s' →
    ∃ delta, s'.movimientos = s.movimientos ++ delta ∧
      (∀ m ∈ delta, m.cuenta_id = cuenta_id ∧ movimientoConsistente m) ∧
      saldoOf s' cuenta_id =
        saldoOf s cuenta_id + (sumaCreditos cuenta_id delta - sumaDebitos cuenta_id delta) := by
  induction ops with
  | nil =>
    intro s s' _ h
    simp only [runOps] at h
    have hs : s = s' := Except.ok.inj h
    subst hs
    exact ⟨[], by simp, by simp, by simp [sumaCreditos, sumaDebitos]⟩
  | cons op ops ih =>
    intro s s' hty h
    cases hop : runOp s cuenta_id op with
    | error e =>
      rw [runOps, hop] at h
      cases h
    | ok r =>
      rw [runOps, hop] at h
      simp only [bind, Except.bind] at h
      obtain ⟨m, hmv, hmc, hcons, hsal⟩ :=
        runOp_ok_spec s cuenta_id op r (hty op (by simp)) hop
      obtain ⟨delta, hdm, hdall, hdsal⟩ :=
        ih r.2 s' (fun o ho => hty o (by simp [ho])) h
      refine ⟨m :: delta, ?_, ?_, ?_⟩
      · rw [hdm, hmv, List.append_assoc]
        rfl
      · intro m' hm'
        rcases List.mem_cons.mp hm' with hm' | hm'
        · subst hm'; exact ⟨hmc, hcons⟩
        · exact hdall m' hm'
      · rw [hdsal, hsal, sumas_cons cuenta_id m delta hmc]
        ring

/-- round(v, 2) lands on the 2-decimal grid. -/
theorem is2dp_round2 (q : ℚ) : is2dp (round2 q) := by
  unfold is2dp round2
  have h : ((roundHalfEven (q * 100) : ℚ) / 100 * 100) = (roundHalfEven (q * 100) : ℚ) := by
    field_simp
  rw [h, Rat.den_intCast]

/-- The 2-decimal grid is closed under addition. -/
theorem is2dp_add (a b : ℚ) (ha : is2dp a) (hb : is2dp b) : is2dp (a + b) := by
  unfold is2dp at *
  have ha' : ((a * 100).num : ℚ) = a * 100 := (Rat.den_eq_one_iff _).mp ha
  have hb' : ((b * 100).num : ℚ) = b * 100 := (Rat.den_eq_one_iff _).mp hb
  have h : (a + b) * 100 = (((a * 100).num + (b * 100).num : ℤ) : ℚ) := by
    push_cast [ha', hb']
    ring
  rw [h, Rat.den_intCast]

/-- The 2-decimal grid is closed under subtraction. -/
theorem is2dp_sub (a b : ℚ) (ha : is2dp a) (hb : is2dp b) : is2dp (a - b) := by
  unfold is2dp at *
  have ha' : ((a * 100).num : ℚ) = a * 100 := (Rat.den_eq_one_iff _).mp ha
  have hb' : ((b * 100).num : ℚ) = b * 100 := (Rat.den_eq_one_iff _).mp hb
  have h : (a - b) * 100 = (((a * 100).num - (b * 100).num : ℤ) : ℚ) := by
    push_cast [ha', hb']
    ring
  rw [h, Rat.den_intCast]

/-- Every digit character produced by digitChar is a decimal digit. -/
theorem digitChar_isDigit (d : Fin 10) : (digitChar d).isDigit = true := by
  fin_cases d <;> rfl

/-- Generated candidate strings have exactly 10 characters. -/
theorem generar_numero_cuenta_length (rng : ℕ → ℕ) (k : ℕ) :
    (generar_numero_cuenta rng k).length = 10 := by
  unfold generar_numero_cuenta toDigits10
  simp [String.length]

/-- Generated candidate strings consist of decimal digits only. -/
theorem generar_numero_cuenta_digits (rng : ℕ → ℕ) (k : ℕ) :
    ∀ ch ∈ (generar_numero_cuenta rng k).data, ch.isDigit = true := by
  unfold generar_numero_cuenta toDigits10
  intro ch hch
  simp only [String.data] at hch
  obtain ⟨i, _, hi⟩ := List.mem_map.mp hch
  rw [← hi]
  exact digitChar_isDigit _

/-- Whenever the rejection-sampling loop returns, the returned string is a
10-character decimal-digit string on which the collision check is false. -/
theorem generar_numero_cuenta_unico_spec (existe : String → Bool) (rng : ℕ → ℕ) :
    ∀ fuel k n, generar_numero_cuenta_unico existe rng fuel k = some n →
      n.length = 10 ∧ (∀ ch ∈ n.data, ch.isDigit = true) ∧ existe n = false := by
  intro fuel
  induction fuel with
  | zero => intro k n h; cases h
  | succ fuel ih =>
    intro k n h
    rw [generar_numero_cuenta_unico] at h
    by_cases he : existe (generar_numero_cuenta rng k) = true
    · rw [if_pos he] at h
      exact ih (k + 1) n h
    · rw [if_neg he] at h
      have hn : generar_numero_cuenta rng k = n := Option.some.inj h
      subst hn
      exact ⟨generar_numero_cuenta_length rng k, generar_numero_cuenta_digits rng k,
        Bool.not_eq_true _ ▸ (eq_false_of_ne_true he)⟩

/-- Repo `create` evaluated: the stored document carries the generated
numero_cuenta, the store grows by that one document, and the movement log
is untouched. -/
theorem create_spec (rng : ℕ → ℕ) (fuel k : ℕ) (s : ServiceState) (cuenta : Cuenta)
    (cuenta_id : String) (s1 : ServiceState)
    (h : CuentasRepository.create rng fuel k s cuenta = some (cuenta_id, s1)) :
    ∃ numero, generar_numero_cuenta_unico (cuenta_existe s) rng fuel k = some numero ∧
      cuenta_id = "doc" ++ toString s.cuentas.length ∧
      s1.cuentas = (cuenta_id, { cuenta with numero_cuenta := numero }) :: s.cuentas ∧
      s1.movimientos = s.movimientos := by
  unfold CuentasRepository.create at h
  cases hgen : generar_numero_cuenta_unico (cuenta_existe s) rng fuel k with
  | none => rw [hgen] at h; cases h
  | some numero =>
    rw [hgen] at h
    simp only [Option.some.injEq, Prod.mk.injEq] at h
    exact ⟨numero, rfl, h.1.symm, by rw [← h.2, ← h.1], by rw [← h.2]⟩

/-- get_by_id resolves a freshly prepended document to that document. -/
theorem get_by_id_of_cuentas_eq (s : ServiceState) (cuenta_id : String) (c : Cuenta)
    (rest : List (String × Cuenta)) (hc : s.cuentas = (cuenta_id, c) :: rest) :
    get_by_id s cuenta_id = some c := by
  unfold get_by_id
  rw [hc]
  simp [List.find?_cons]

/-- Full characterization of crear_cuenta when the numero generation
terminates: the returned account is ACTIVA with saldo = saldo_inicial, and
exactly one initial DEPOSITO movement is appended iff saldo_inicial > 0. -/
theorem crear_cuenta_spec (rng : ℕ → ℕ) (fuel k : ℕ) (s : ServiceState) (d : CuentaCreate)
    (r : Option Cuenta) (s' : ServiceState)
    (h : crear_cuenta rng fuel k s d = some (r, s')) :
    ∃ numero cuenta_id,
      r = some { cliente_id := d.cliente_id, numero_cuenta := numero, tipo := d.tipo,
                 moneda := d.moneda, saldo := d.saldo_inicial,
                 estado := EstadoCuenta.ACTIVA } ∧
      ((0 < d.saldo_inicial ∧ s'.movimientos = s.movimientos ++
          [{ cuenta_id := cuenta_id, tipo := TipoMovimiento.DEPOSITO,
             monto := d.saldo_inicial, saldo_anterior := 0,
             saldo_nuevo := d.saldo_inicial,
             descripcion := "Depósito inicial - Apertura de cuenta",
             referencia := none }]) ∨
       (¬ 0 < d.saldo_inicial ∧ s'.movimientos = s.movimientos)) := by
  unfold crear_cuenta at h
  set nueva : Cuenta :=
    { cliente_id := d.cliente_id, numero_cuenta := "", tipo := d.tipo,
      moneda := d.moneda, saldo := d.saldo_inicial,
      estado := EstadoCuenta.ACTIVA } with hnueva
  dsimp only at h
  cases hcr : CuentasRepository.create rng fuel k s nueva with
  | none => rw [hcr] at h; cases h
  | some p =>
    obtain ⟨cuenta_id, s1⟩ := p
    rw [hcr] at h
    dsimp only at h
    obtain ⟨numero, hgen, hcid, hcu, hmv⟩ := create_spec rng fuel k s nueva cuenta_id s1 hcr
    have hg : get_by_id s1 cuenta_id = some { nueva with numero_cuenta := numero } :=
      get_by_id_of_cuentas_eq s1 cuenta_id _ _ hcu
    by_cases h0 : 0 < d.saldo_inicial
    · rw [if_pos h0] at h
      simp only [Option.some.injEq, Prod.mk.injEq] at h
      obtain ⟨hr, hs'⟩ := h
      refine ⟨numero, cuenta_id, ?_, Or.inl ⟨h0, ?_⟩⟩
      · rw [← hr, hg]
      · rw [← hs']
        show (afterMovimiento s1 _).movimientos = _
        rw [movimientos_afterMovimiento, hmv]
    · rw [if_neg h0] at h
      simp only [Option.some.injEq, Prod.mk.injEq] at h
      obtain ⟨hr, hs'⟩ := h
      refine ⟨numero, cuenta_id, ?_, Or.inr ⟨h0, ?_⟩⟩
      · rw [← hr, hg]
      · rw [← hs', hmv]

/-- A validated DepositoRequest carries the rounded amount. -/
theorem mkDepositoRequest_monto (raw : ℚ) (d : String) (req : DepositoRequest)
    (h : mkDepositoRequest raw d = .ok req) : req.monto = round2 raw := by
  unfold mkDepositoRequest at h
  split at h
  · cases h
  · split at h
    · cases h
    · split at h
      · cases h
      · rw [← Except.ok.inj h]

/-- A validated RetiroRequest carries the rounded amount. -/
theorem mkRetiroRequest_monto (raw : ℚ) (d : String) (req : RetiroRequest)
    (h : mkRetiroRequest raw d = .ok req) : req.monto = round2 raw := by
  unfold mkRetiroRequest at h
  split at h
  · cases h
  · split at h
    · cases h
    · rw [← Except.ok.inj h]

end Lemmas

section Claims

open CuentasRepository CuentasService

/-- Fixture: an ACTIVA account with saldo 100. -/
def cuentaAct100 : Cuenta :=
  { cliente_id := "cli1", numero_cuenta := "1111111111", tipo := TipoCuenta.AHORRO,
    moneda := Moneda.BOB, saldo := 100, estado := EstadoCuenta.ACTIVA }

/-- Fixture store for the C1 counterexample. -/
def sC1 : ServiceState := ⟨[("c1", cuentaAct100)], []⟩

/-- Movement the C1 counterexample credit records. -/
def mC1 : Movimiento := movAcreditacion "c1" 50 "pago" TipoMovimiento.RETIRO 100

/-- Store after the C1 counterexample credit. -/
def sC1x : ServiceState :=
  afterMovimiento (updCuentas sC1 "c1" (saldoUpdate (100 + 50))) mC1

/-- C1 counterexample: a successful credit (acreditar_saldo) whose
movement-kind override is the debit kind RETIRO increases the balance by
its amount while its movement counts on the debit side of the claimed
equation, so after this successful sequence the balance (150) differs from
initial balance plus credit-kind amounts minus debit-kind amounts (50). -/
theorem c1_counterexample :
    runOps "c1" [Op.acreditar 50 "pago" TipoMovimiento.RETIRO] sC1 = .ok sC1x ∧
    sC1x.movimientos = sC1.movimientos ++ [mC1] ∧
    saldoOf sC1x "c1" ≠
      saldoOf sC1 "c1" + (sumaCreditos "c1" [mC1] - sumaDebitos "c1" [mC1]) := by
  refine ⟨rfl, rfl, ?_⟩
  have h1 : saldoOf sC1x "c1" = 100 + 50 := rfl
  have h2 : saldoOf sC1 "c1" = 100 := rfl
  rw [h1, h2]
  simp only [sumaCreditos, sumaDebitos, mC1, movAcreditacion, esCredito, List.filter,
    List.map, List.sum_cons, List.sum_nil]
  norm_num

/-- C1 (amended): for every account and every sequence of successful
deposit, withdraw, credit and debit calls executed sequentially, where each
debit call's movement-kind override is a debit kind and each credit call's
is a credit kind, the final balance equals the starting balance plus the
sum of the appended movements' amounts of kind DEPOSITO or
TRANSFERENCIA_ENTRADA minus the sum of those of kind RETIRO,
TRANSFERENCIA_SALIDA or PAGO_SERVICIO. -/
theorem c1_ledger_invariant (cuenta_id : String) (ops : List Op) (s s' : ServiceState)
    (hty : ∀ op ∈ ops, opBienTipada op = true)
    (h : runOps cuenta_id ops s = .ok s') :
    ∃ delta, s'.movimientos = s.movimientos ++ delta ∧
      saldoOf s' cuenta_id = saldoOf s cuenta_id
        + (sumaCreditos cuenta_id delta - sumaDebitos cuenta_id delta) :=
  (runOps_spec cuenta_id ops s s' hty h).imp (fun _ hd => ⟨hd.1, hd.2.2⟩)

/-- Fixture store for the C1 witness. -/
def sC1w : ServiceState := ⟨[("c1", cuentaAct100)], []⟩

/-- First movement of the C1 witness run. -/
def mC1w1 : Movimiento := movDeposito "c1" ⟨50, "dep"⟩ 100

/-- Second movement of the C1 witness run. -/
def mC1w2 : Movimiento := movDeposito "c1" ⟨25, "dep2"⟩ (100 + 50)

/-- Store after the C1 witness run of two deposits. -/
def sC1wx : ServiceState :=
  afterMovimiento
    (updCuentas (afterMovimiento (updCuentas sC1w "c1" (saldoUpdate (100 + 50))) mC1w1)
      "c1" (saldoUpdate (100 + 50 + 25)))
    mC1w2

/-- C1 witness: the ledger invariant evaluated on a concrete two-deposit
run. -/
theorem c1_witness :
    ∃ delta, sC1wx.movimientos = sC1w.movimientos ++ delta ∧
      saldoOf sC1wx "c1" = saldoOf sC1w "c1"
        + (sumaCreditos "c1" delta - sumaDebitos "c1" delta) :=
  c1_ledger_invariant "c1" [Op.depositar ⟨50, "dep"⟩, Op.depositar ⟨25, "dep2"⟩]
    sC1w sC1wx (by decide) rfl

/-- Fixture store for the C2 counterexample. -/
def sC2 : ServiceState := ⟨[("c2", cuentaAct100)], []⟩

/-- Movement the C2 counterexample debit records: kind DEPOSITO, yet the
balance decreased. -/
def mC2 : Movimiento := movDescuento "c2" 30 "cobro" TipoMovimiento.DEPOSITO 100

/-- Store after the C2 counterexample debit. -/
def sC2x : ServiceState :=
  afterMovimiento (updCuentas sC2 "c2" (saldoUpdate (100 - 30))) mC2

/-- C2 counterexample: descontar_saldo accepts the credit kind DEPOSITO as
its movement-kind override; the recorded movement then has kind DEPOSITO
but saldo_nuevo - saldo_anterior = -monto, not +monto as the claim
requires for that kind. -/
theorem c2_counterexample :
    (∃ resp, descontar_saldo sC2 "c2" 30 "cobro" TipoMovimiento.DEPOSITO =
      .ok (resp, sC2x)) ∧
    sC2x.movimientos = [mC2] ∧
    mC2.tipo = TipoMovimiento.DEPOSITO ∧
    mC2.saldo_nuevo - mC2.saldo_anterior ≠ mC2.monto := by
  have hd := descontar_saldo_eq sC2 "c2" 30 "cobro" TipoMovimiento.DEPOSITO cuentaAct100
    rfl rfl (by norm_num [cuentaAct100])
  refine ⟨⟨_, hd⟩, rfl, rfl, ?_⟩
  show (100 : ℚ) - 30 - 100 ≠ 30
  norm_num

/-- C2 (amended): every movement record created by deposit, withdraw,
account opening, and by debit/credit whose movement-kind override matches
the direction of the balance change (debit kinds for descontar_saldo,
credit kinds for acreditar_saldo) satisfies saldo_nuevo - saldo_anterior =
+monto for DEPOSITO/TRANSFERENCIA_ENTRADA and -monto for
RETIRO/TRANSFERENCIA_SALIDA/PAGO_SERVICIO. -/
theorem c2_sign_invariant :
    (∀ cuenta_id ops s s', (∀ op ∈ ops, opBienTipada op = true) →
      runOps cuenta_id ops s = .ok s' →
      ∀ m ∈ s'.movimientos.drop s.movimientos.length, movimientoConsistente m) ∧
    (∀ rng fuel k s d r s', crear_cuenta rng fuel k s d = some (r, s') →
      ∀ m ∈ s'.movimientos.drop s.movimientos.length, movimientoConsistente m) := by
  constructor
  · intro cuenta_id ops s s' hty h
    obtain ⟨delta, hd, hall, _⟩ := runOps_spec cuenta_id ops s s' hty h
    rw [hd, List.drop_left]
    exact fun m hm => (hall m hm).2
  · intro rng fuel k s d r s' h
    obtain ⟨numero, cuenta_id, _, hcase⟩ := crear_cuenta_spec rng fuel k s d r s' h
    rcases hcase with ⟨_, hmv⟩ | ⟨_, hmv⟩
    · rw [hmv, List.drop_left]
      intro m hm
      rw [List.mem_singleton.mp hm]
      show d.saldo_inicial - 0 = montoNeto _
      simp [montoNeto, esCredito]
    · rw [hmv]
      simp

/-- Fixture store for the C2 witness. -/
def sC2w : ServiceState := ⟨[("c2", cuentaAct100)], []⟩

/-- Store after the C2 witness deposit. -/
def sC2wx : ServiceState :=
  afterMovimiento (updCuentas sC2w "c2" (saldoUpdate (100 + 50)))
    (movDeposito "c2" ⟨50, "dep"⟩ 100)

/-- C2 witness: the sign invariant evaluated on a concrete deposit run. -/
theorem c2_witness :
    ∀ m ∈ sC2wx.movimientos.drop sC2w.movimientos.length, movimientoConsistente m :=
  c2_sign_invariant.1 "c2" [Op.depositar ⟨50, "dep"⟩] sC2w sC2wx (by decide) rfl

/-- Fixture: a CERRADA account with saldo 100. -/
def cuentaCerr100 : Cuenta :=
  { cliente_id := "cli3", numero_cuenta := "3333333333", tipo := TipoCuenta.AHORRO,
    moneda := Moneda.BOB, saldo := 100, estado := EstadoCuenta.CERRADA }

/-- Fixture store for the C3 counterexample. -/
def sC3 : ServiceState := ⟨[("c3", cuentaCerr100)], []⟩

/-- Store after blocking the CERRADA account of the C3 counterexample. -/
def sC3x : ServiceState := updCuentas sC3 "c3" (estadoUpdate EstadoCuenta.BLOQUEADA)

/-- C3 counterexample: bloquear_cuenta only rejects an account that is
already BLOQUEADA, so blocking a CERRADA account succeeds and transitions
it to BLOQUEADA instead of failing. -/
theorem c3_counterexample :
    (get_by_id sC3 "c3").map Cuenta.estado = some EstadoCuenta.CERRADA ∧
    bloquear_cuenta sC3 "c3" =
      .ok (some { cuentaCerr100 with estado := EstadoCuenta.BLOQUEADA }, sC3x) ∧
    (get_by_id sC3x "c3").map Cuenta.estado = some EstadoCuenta.BLOQUEADA := by
  refine ⟨rfl, ?_, rfl⟩
  exact bloquear_cuenta_eq sC3 "c3" cuentaCerr100 rfl (by decide)

/-- C3 (amended): CERRADA is not terminal.  On a CERRADA account the
unblock operation fails with NotBlocked and every balance operation fails
with an invalid-state error, leaving the store untouched, but the block
operation succeeds and transitions the account to BLOQUEADA, and the
update operation sets the estado to any requested value. -/
theorem c3_cerrada_not_terminal (s : ServiceState) (cuenta_id : String) (c : Cuenta)
    (hget : get_by_id s cuenta_id = some c)
    (hc : c.estado = EstadoCuenta.CERRADA) :
    bloquear_cuenta s cuenta_id = .ok
      (some { c with estado := EstadoCuenta.BLOQUEADA },
       updCuentas s cuenta_id (estadoUpdate EstadoCuenta.BLOQUEADA)) ∧
    desbloquear_cuenta s cuenta_id = .error .noBloqueada ∧
    (∀ req, depositar s cuenta_id req = .error (.estadoInvalido EstadoCuenta.CERRADA)) ∧
    (∀ req, retirar s cuenta_id req = .error (.estadoInvalido EstadoCuenta.CERRADA)) ∧
    (∀ monto d t, descontar_saldo s cuenta_id monto d t = .error .cuentaNoActiva) ∧
    (∀ monto d t, acreditar_saldo s cuenta_id monto d t = .error .cuentaNoActiva) ∧
    (∀ e, actualizar_cuenta s cuenta_id { tipo := none, estado := some e } = .ok
      (some { c with estado := e }, updCuentas s cuenta_id (estadoUpdate e))) := by
  have hnb : c.estado ≠ EstadoCuenta.BLOQUEADA := by rw [hc]; intro hx; cases hx
  have hna : c.estado ≠ EstadoCuenta.ACTIVA := by rw [hc]; intro hx; cases hx
  refine ⟨bloquear_cuenta_eq s cuenta_id c hget hnb,
    desbloquear_cuenta_no_bloqueada s cuenta_id c hget hnb, ?_, ?_, ?_, ?_, ?_⟩
  · intro req
    rw [depositar_no_activa s cuenta_id req c hget hna, hc]
  · intro req
    rw [retirar_no_activa s cuenta_id req c hget hna, hc]
  · intro monto d t
    exact descontar_saldo_no_activa s cuenta_id monto d t c hget hna
  · intro monto d t
    exact acreditar_saldo_no_activa s cuenta_id monto d t c hget hna
  · intro e
    exact actualizar_cuenta_estado_eq s cuenta_id c e hget

/-- Fixture store for the C3 witness. -/
def sC3w : ServiceState := ⟨[("c3", cuentaCerr100)], []⟩

/-- C3 witness: the amended statement evaluated on a concrete CERRADA
account. -/
theorem c3_witness :
    bloquear_cuenta sC3w "c3" = .ok
      (some { cuentaCerr100 with estado := EstadoCuenta.BLOQUEADA },
       updCuentas sC3w "c3" (estadoUpdate EstadoCuenta.BLOQUEADA)) ∧
    desbloquear_cuenta sC3w "c3" = .error .noBloqueada ∧
    (∀ req, depositar sC3w "c3" req = .error (.estadoInvalido EstadoCuenta.CERRADA)) ∧
    (∀ req, retirar sC3w "c3" req = .error (.estadoInvalido EstadoCuenta.CERRADA)) ∧
    (∀ monto d t, descontar_saldo sC3w "c3" monto d t = .error .cuentaNoActiva) ∧
    (∀ monto d t, acreditar_saldo sC3w "c3" monto d t = .error .cuentaNoActiva) ∧
    (∀ e, actualizar_cuenta sC3w "c3" { tipo := none, estado := some e } = .ok
      (some { cuentaCerr100 with estado := e },
       updCuentas sC3w "c3" (estadoUpdate e))) :=
  c3_cerrada_not_terminal sC3w "c3" cuentaCerr100 rfl rfl

/-- C4: on an existing ACTIVA account, a withdrawal of more than the saldo
fails with the insufficient-funds error whose detail carries the available
saldo and the moneda (no state escapes the failed call, so the balance is
unchanged and no movement is recorded); a withdrawal of at most the saldo
succeeds, persists saldo − monto, and appends exactly one RETIRO
movement. -/
theorem c4_retirar_spec (s : ServiceState) (cuenta_id : String) (c : Cuenta)
    (req : RetiroRequest) (hget : get_by_id s cuenta_id = some c)
    (hA : c.estado = EstadoCuenta.ACTIVA) :
    (c.saldo < req.monto →
      retirar s cuenta_id req = .error (.saldoInsuficiente c.saldo c.moneda)) ∧
    (req.monto ≤ c.saldo →
      ∃ resp s', retirar s cuenta_id req = .ok (resp, s') ∧
        saldoOf s' cuenta_id = c.saldo - req.monto ∧
        s'.movimientos = s.movimientos ++ [movRetiro cuenta_id req c.saldo] ∧
        (movRetiro cuenta_id req c.saldo).tipo = TipoMovimiento.RETIRO) := by
  constructor
  · exact fun hs => retirar_insuficiente s cuenta_id req c hget hA hs
  · intro hs
    refine ⟨_, _, retirar_eq s cuenta_id req c hget hA hs, ?_, rfl, rfl⟩
    exact saldoOf_after_update s cuenta_id c _ _ hget

/-- Fixture: an ACTIVA account with saldo 150 in BOB. -/
def cuentaAct150 : Cuenta :=
  { cliente_id := "cli4", numero_cuenta := "4444444444", tipo := TipoCuenta.AHORRO,
    moneda := Moneda.BOB, saldo := 150, estado := EstadoCuenta.ACTIVA }

/-- Fixture store for the C4 witness. -/
def sC4 : ServiceState := ⟨[("c4", cuentaAct150)], []⟩

/-- C4 witness: withdrawing 200 from a saldo of 150 fails carrying 150 BOB
in the error; withdrawing 150 succeeds, persists 0 and appends the RETIRO
movement. -/
theorem c4_witness :
    retirar sC4 "c4" ⟨200, "ret"⟩ = .error (.saldoInsuficiente 150 Moneda.BOB) ∧
    (∃ resp s', retirar sC4 "c4" ⟨150, "ret"⟩ = .ok (resp, s') ∧
      saldoOf s' "c4" = 150 - 150 ∧
      s'.movimientos = sC4.movimientos ++ [movRetiro "c4" ⟨150, "ret"⟩ 150] ∧
      (movRetiro "c4" ⟨150, "ret"⟩ 150).tipo = TipoMovimiento.RETIRO) :=
  ⟨(c4_retirar_spec sC4 "c4" cuentaAct150 ⟨200, "ret"⟩ rfl rfl).1 (by decide),
   (c4_retirar_spec sC4 "c4" cuentaAct150 ⟨150, "ret"⟩ rfl rfl).2 (by decide)⟩

/-- Fixture store for the C5 counterexample. -/
def sC5 : ServiceState := ⟨[("c5", cuentaAct100)], []⟩

/-- Movement the C5 counterexample negative-amount debit records. -/
def mC5 : Movimiento := movDescuento "c5" (-50) "ajuste" TipoMovimiento.RETIRO 100

/-- Store after the C5 counterexample debit. -/
def sC5x : ServiceState :=
  afterMovimiento (updCuentas sC5 "c5" (saldoUpdate (100 - -50))) mC5

/-- C5 counterexample: descontar_saldo accepts the non-positive amount −50
instead of rejecting it: the call succeeds, the balance changes from 100 to
150, and a movement is recorded. -/
theorem c5_counterexample :
    (∃ resp, descontar_saldo sC5 "c5" (-50) "ajuste" TipoMovimiento.RETIRO =
      .ok (resp, sC5x)) ∧
    saldoOf sC5 "c5" = 100 ∧ saldoOf sC5x "c5" = 150 ∧
    sC5x.movimientos.length = sC5.movimientos.length + 1 := by
  have hd := descontar_saldo_eq sC5 "c5" (-50) "ajuste" TipoMovimiento.RETIRO cuentaAct100
    rfl rfl (by norm_num [cuentaAct100])
  refine ⟨⟨_, hd⟩, rfl, ?_, rfl⟩
  show (100 : ℚ) - -50 = 150
  norm_num

/-- C5 (amended): descontar_saldo and acreditar_saldo perform no amount
validation at all.  On an existing ACTIVA account and any monto ≤ 0,
descontar_saldo succeeds whenever saldo ≥ monto and changes the balance by
−monto (an increase), and acreditar_saldo always succeeds and changes the
balance by +monto (a decrease); no InvalidAmount-style rejection exists on
these operations. -/
theorem c5_no_amount_validation (s : ServiceState) (cuenta_id : String) (c : Cuenta)
    (monto : ℚ) (d : String) (t : TipoMovimiento)
    (hget : get_by_id s cuenta_id = some c)
    (hA : c.estado = EstadoCuenta.ACTIVA) (_hm : monto ≤ 0) :
    (monto ≤ c.saldo →
      ∃ resp s', descontar_saldo s cuenta_id monto d t = .ok (resp, s') ∧
        saldoOf s' cuenta_id = c.saldo - monto) ∧
    (∃ resp s', acreditar_saldo s cuenta_id monto d t = .ok (resp, s') ∧
      saldoOf s' cuenta_id = c.saldo + monto) := by
  constructor
  · intro hs
    exact ⟨_, _, descontar_saldo_eq s cuenta_id monto d t c hget hA hs,
      saldoOf_after_update s cuenta_id c _ _ hget⟩
  · exact ⟨_, _, acreditar_saldo_eq s cuenta_id monto d t c hget hA,
      saldoOf_after_update s cuenta_id c _ _ hget⟩

/-- Fixture store for the C5 witness. -/
def sC5w : ServiceState := ⟨[("c5", cuentaAct100)], []⟩

/-- C5 witness: the amended statement evaluated at monto = −50 on a saldo
of 100. -/
theorem c5_witness :
    (∃ resp s', descontar_saldo sC5w "c5" (-50) "ajuste" TipoMovimiento.RETIRO =
      .ok (resp, s') ∧ saldoOf s' "c5" = cuentaAct100.saldo - (-50)) ∧
    (∃ resp s', acreditar_saldo sC5w "c5" (-50) "ajuste" TipoMovimiento.DEPOSITO =
      .ok (resp, s') ∧ saldoOf s' "c5" = cuentaAct100.saldo + (-50)) :=
  ⟨(c5_no_amount_validation sC5w "c5" cuentaAct100 (-50) "ajuste" TipoMovimiento.RETIRO
      rfl rfl (by decide)).1 (by decide),
   (c5_no_amount_validation sC5w "c5" cuentaAct100 (-50) "ajuste" TipoMovimiento.DEPOSITO
      rfl rfl (by decide)).2⟩

/-- Helper fact: 1/8 is not on the 2-decimal grid. -/
theorem not_is2dp_eighth : ¬ is2dp (1/8 : ℚ) := by
  intro h
  have h' : (((1/8 : ℚ) * 100).num : ℚ) = (1/8 : ℚ) * 100 := (Rat.den_eq_one_iff _).mp h
  have h2 : ((((1/8 : ℚ) * 100).num : ℚ)) = 25/2 := by rw [h']; norm_num
  have h3 : ((2 * ((1/8 : ℚ) * 100).num : ℤ) : ℚ) = (25 : ℚ) := by push_cast; rw [h2]; ring
  have h4 : (2 * ((1/8 : ℚ) * 100).num : ℤ) = 25 := by exact_mod_cast h3
  omega

/-- Helper fact: integers are on the 2-decimal grid. -/
theorem is2dp_int (n : ℤ) : is2dp (n : ℚ) := by
  unfold is2dp
  have h : (n : ℚ) * 100 = ((n * 100 : ℤ) : ℚ) := by push_cast; ring
  rw [h, Rat.den_intCast]

/-- Helper fact: 100 is on the 2-decimal grid. -/
theorem is2dp_100 : is2dp (100 : ℚ) := by
  have h := is2dp_int 100
  norm_num at h
  exact h

/-- Fixture store for the C6 counterexample. -/
def sC6 : ServiceState := ⟨[("c6", cuentaAct100)], []⟩

/-- Movement the C6 counterexample credit records, amount 1/8 = 0.125. -/
def mC6 : Movimiento := movAcreditacion "c6" (1/8) "micropago" TipoMovimiento.DEPOSITO 100

/-- Store after the C6 counterexample credit. -/
def sC6x : ServiceState :=
  afterMovimiento (updCuentas sC6 "c6" (saldoUpdate (100 + 1/8))) mC6

/-- C6 counterexample: acreditar_saldo applies no rounding: crediting
0.125 persists a movement amount and a balance that are not representable
with 2 decimal places. -/
theorem c6_counterexample :
    (∃ resp, acreditar_saldo sC6 "c6" (1/8) "micropago" TipoMovimiento.DEPOSITO =
      .ok (resp, sC6x)) ∧
    sC6x.movimientos = [mC6] ∧ ¬ is2dp mC6.monto ∧ ¬ is2dp (saldoOf sC6x "c6") := by
  have hd := acreditar_saldo_eq sC6 "c6" (1/8) "micropago" TipoMovimiento.DEPOSITO
    cuentaAct100 rfl rfl
  refine ⟨⟨_, hd⟩, rfl, not_is2dp_eighth, ?_⟩
  show ¬ is2dp ((100 : ℚ) + 1/8)
  intro h
  have hsub := is2dp_sub _ _ h is2dp_100
  have heq : (100 : ℚ) + 1/8 - 100 = 1/8 := by ring
  rw [heq] at hsub
  exact not_is2dp_eighth hsub

/-- C6 (amended): the deposit and withdraw request schemas round the amount
to 2 decimal places, so those two operations persist movement amounts and
balances on the 2-decimal grid whenever the prior balance is on it; the
cross-service debit and credit operations apply no rounding (see the
counterexample). -/
theorem c6_rounding (s : ServiceState) (cuenta_id : String) (c : Cuenta)
    (hget : get_by_id s cuenta_id = some c)
    (hA : c.estado = EstadoCuenta.ACTIVA) (hs2 : is2dp c.saldo) :
    (∀ raw d req, mkDepositoRequest raw d = .ok req →
      ∃ resp s', depositar s cuenta_id req = .ok (resp, s') ∧
        s'.movimientos = s.movimientos ++ [movDeposito cuenta_id req c.saldo] ∧
        is2dp (movDeposito cuenta_id req c.saldo).monto ∧
        is2dp (movDeposito cuenta_id req c.saldo).saldo_nuevo ∧
        is2dp (saldoOf s' cuenta_id)) ∧
    (∀ raw d req, mkRetiroRequest raw d = .ok req → req.monto ≤ c.saldo →
      ∃ resp s', retirar s cuenta_id req = .ok (resp, s') ∧
        s'.movimientos = s.movimientos ++ [movRetiro cuenta_id req c.saldo] ∧
        is2dp (movRetiro cuenta_id req c.saldo).monto ∧
        is2dp (movRetiro cuenta_id req c.saldo).saldo_nuevo ∧
        is2dp (saldoOf s' cuenta_id)) := by
  constructor
  · intro raw d req hreq
    have hm : req.monto = round2 raw := mkDepositoRequest_monto raw d req hreq
    have h2 : is2dp req.monto := hm ▸ is2dp_round2 raw
    refine ⟨_, _, depositar_eq s cuenta_id req c hget hA, rfl, h2,
      is2dp_add _ _ hs2 h2, ?_⟩
    rw [saldoOf_after_update s cuenta_id c _ _ hget]
    exact is2dp_add _ _ hs2 h2
  · intro raw d req hreq hs
    have hm : req.monto = round2 raw := mkRetiroRequest_monto raw d req hreq
    have h2 : is2dp req.monto := hm ▸ is2dp_round2 raw
    refine ⟨_, _, retirar_eq s cuenta_id req c hget hA hs, rfl, h2,
      is2dp_sub _ _ hs2 h2, ?_⟩
    rw [saldoOf_after_update s cuenta_id c _ _ hget]
    exact is2dp_sub _ _ hs2 h2

/-- Fixture store for the C6 witness. -/
def sC6w : ServiceState := ⟨[("c6", cuentaAct100)], []⟩

/-- Validated deposit request of the C6 witness. -/
def reqC6 : DepositoRequest := { monto := round2 5, descripcion := "d" }

/-- C6 witness: the rounding guarantee evaluated on a concrete validated
deposit of 5. -/
theorem c6_witness :
    ∃ resp s', depositar sC6w "c6" reqC6 = .ok (resp, s') ∧
      s'.movimientos = sC6w.movimientos ++ [movDeposito "c6" reqC6 cuentaAct100.saldo] ∧
      is2dp (movDeposito "c6" reqC6 cuentaAct100.saldo).monto ∧
      is2dp (movDeposito "c6" reqC6 cuentaAct100.saldo).saldo_nuevo ∧
      is2dp (saldoOf s' "c6") :=
  (c6_rounding sC6w "c6" cuentaAct100 rfl rfl is2dp_100).1 5 "d" reqC6 rfl

/-- C7: a successful openAccount with initialBalance ≥ 0 yields an account
in state ACTIVA whose saldo is the requested initial balance; when the
initial balance is positive exactly one DEPOSITO movement is appended with
saldo_anterior = 0, saldo_nuevo = the initial balance and the
initial-deposit description; when it is zero no movement is created. -/
theorem c7_crear_cuenta (rng : ℕ → ℕ) (fuel k : ℕ) (s : ServiceState) (d : CuentaCreate)
    (r : Option Cuenta) (s' : ServiceState)
    (_h0 : 0 ≤ d.saldo_inicial)
    (h : crear_cuenta rng fuel k s d = some (r, s')) :
    ∃ c, r = some c ∧ c.estado = EstadoCuenta.ACTIVA ∧ c.saldo = d.saldo_inicial ∧
      c.cliente_id = d.cliente_id ∧
      (0 < d.saldo_inicial → ∃ cuenta_id, s'.movimientos = s.movimientos ++
        [{ cuenta_id := cuenta_id, tipo := TipoMovimiento.DEPOSITO,
           monto := d.saldo_inicial, saldo_anterior := 0,
           saldo_nuevo := d.saldo_inicial,
           descripcion := "Depósito inicial - Apertura de cuenta",
           referencia := none }]) ∧
      (d.saldo_inicial = 0 → s'.movimientos = s.movimientos) := by
  obtain ⟨numero, cuenta_id, hr, hcase⟩ := crear_cuenta_spec rng fuel k s d r s' h
  refine ⟨_, hr, rfl, rfl, rfl, ?_, ?_⟩
  · intro hpos
    rcases hcase with ⟨_, hmv⟩ | ⟨hneg, _⟩
    · exact ⟨cuenta_id, hmv⟩
    · exact absurd hpos hneg
  · intro hz
    rcases hcase with ⟨hpos, _⟩ | ⟨_, hmv⟩
    · rw [hz] at hpos
      exact absurd hpos (lt_irrefl 0)
    · exact hmv

/-- Fixture empty store for the C7 witness. -/
def sC7 : ServiceState := ⟨[], []⟩

/-- Open-account request of the C7 witness. -/
def dC7 : CuentaCreate := ⟨"cli7", TipoCuenta.AHORRO, Moneda.BOB, 100⟩

/-- Account the C7 witness run creates. -/
def cC7 : Cuenta :=
  ⟨"cli7", "7000000000", TipoCuenta.AHORRO, Moneda.BOB, 100, EstadoCuenta.ACTIVA⟩

/-- Initial movement the C7 witness run records. -/
def mC7 : Movimiento :=
  ⟨"doc0", TipoMovimiento.DEPOSITO, 100, 0, 100,
   "Depósito inicial - Apertura de cuenta", none⟩

/-- Store after the C7 witness run. -/
def sC7x : ServiceState := ⟨[("doc0", cC7)], [mC7]⟩

/-- C7 witness: opening an account with initial balance 100 on an empty
store. -/
theorem c7_witness :
    ∃ c, (some cC7 : Option Cuenta) = some c ∧ c.estado = EstadoCuenta.ACTIVA ∧
      c.saldo = dC7.saldo_inicial ∧ c.cliente_id = dC7.cliente_id ∧
      (0 < dC7.saldo_inicial → ∃ cuenta_id, sC7x.movimientos = sC7.movimientos ++
        [{ cuenta_id := cuenta_id, tipo := TipoMovimiento.DEPOSITO,
           monto := dC7.saldo_inicial, saldo_anterior := 0,
           saldo_nuevo := dC7.saldo_inicial,
           descripcion := "Depósito inicial - Apertura de cuenta",
           referencia := none }]) ∧
      (dC7.saldo_inicial = 0 → sC7x.movimientos = sC7.movimientos) :=
  c7_crear_cuenta (fun _ => 7) 1 0 sC7 dC7 (some cC7) sC7x (by decide) rfl

/-- C8: on every existing account, checkSufficientFunds
(validar_saldo_disponible) returns, without raising and with the store
unchanged, true iff the account is ACTIVA and its saldo is at least the
requested monto — in particular false for BLOQUEADA and CERRADA accounts
whatever their saldo. -/
theorem c8_validar_saldo (s : ServiceState) (cuenta_id : String) (monto : ℚ) (c : Cuenta)
    (hget : get_by_id s cuenta_id = some c) :
    ∃ b, validar_saldo_disponible s cuenta_id monto = .ok (b, s) ∧
      (b = true ↔ (c.estado = EstadoCuenta.ACTIVA ∧ monto ≤ c.saldo)) := by
  refine ⟨_, validar_saldo_disponible_eq s cuenta_id monto c hget, ?_⟩
  by_cases hA : c.estado = EstadoCuenta.ACTIVA
  · simp [hA]
  · simp [hA]

/-- Fixture: a BLOQUEADA account with a large saldo. -/
def cuentaBlq1000 : Cuenta :=
  ⟨"cli8", "8888888888", TipoCuenta.AHORRO, Moneda.BOB, 1000, EstadoCuenta.BLOQUEADA⟩

/-- Fixture store for the C8 witness. -/
def sC8 : ServiceState := ⟨[("c8", cuentaBlq1000)], []⟩

/-- C8 witness: the funds pre-check on a BLOQUEADA account with ample
saldo: it answers (false, unchanged store) and does not raise. -/
theorem c8_witness :
    ∃ b, validar_saldo_disponible sC8 "c8" 5 = .ok (b, sC8) ∧
      (b = true ↔ (cuentaBlq1000.estado = EstadoCuenta.ACTIVA ∧
        (5 : ℚ) ≤ cuentaBlq1000.saldo)) :=
  c8_validar_saldo sC8 "c8" 5 cuentaBlq1000 rfl

/-- C9: whenever account-number generation returns, the value is a
10-character decimal-digit string not carried by any stored account, and
after the create that stores it the collision check answers true for it —
so a later sequential generation (hence creation) can never return the
same number again. -/
theorem c9_numero_unico (s : ServiceState) (rng : ℕ → ℕ) (fuel k : ℕ) (n : String)
    (h : generar_numero_cuenta_unico (cuenta_existe s) rng fuel k = some n) :
    n.length = 10 ∧ (∀ ch ∈ n.data, ch.isDigit = true) ∧ cuenta_existe s n = false ∧
    (∀ cuenta cuenta_id s1,
      CuentasRepository.create rng fuel k s cuenta = some (cuenta_id, s1) →
      cuenta_existe s1 n = true) := by
  obtain ⟨hlen, hdig, hex⟩ :=
    generar_numero_cuenta_unico_spec (cuenta_existe s) rng fuel k n h
  refine ⟨hlen, hdig, hex, ?_⟩
  intro cuenta cuenta_id s1 hcr
  obtain ⟨numero, hgen, _, hcu, _⟩ := create_spec rng fuel k s cuenta cuenta_id s1 hcr
  have hnum : numero = n := by
    rw [hgen] at h
    exact Option.some.inj h
  subst hnum
  unfold cuenta_existe
  rw [hcu]
  simp [List.any_cons]

/-- Fixture empty store for the C9 witness. -/
def sC9 : ServiceState := ⟨[], []⟩

/-- C9 witness: generation from the draw 123 over an empty store returns
the fresh 10-digit string 3210000000. -/
theorem c9_witness :
    ("3210000000" : String).length = 10 ∧
    (∀ ch ∈ ("3210000000" : String).data, ch.isDigit = true) ∧
    cuenta_existe sC9 "3210000000" = false ∧
    (∀ cuenta cuenta_id s1,
      CuentasRepository.create (fun _ => 123) 1 0 sC9 cuenta = some (cuenta_id, s1) →
      cuenta_existe s1 "3210000000" = true) :=
  c9_numero_unico sC9 (fun _ => 123) 1 0 "3210000000" rfl

/-- C10: the repository mutations update, update_saldo, cambiar_estado and
delete return True whenever they return at all: no False ever flows
through their declared boolean result, so a persistence failure can only
surface as an exception (modelled here as the Except error). -/
theorem c10_repo_mutations_true :
    ∀ s cuenta_id,
      (∀ u r, CuentasRepository.update s cuenta_id u = .ok r → r.1 = true) ∧
      (∀ v r, update_saldo s cuenta_id v = .ok r → r.1 = true) ∧
      (∀ e r, cambiar_estado s cuenta_id e = .ok r → r.1 = true) ∧
      (∀ r, deleteCuenta s cuenta_id = .ok r → r.1 = true) := by
  intro s cuenta_id
  have hu : ∀ u r, CuentasRepository.update s cuenta_id u = .ok r → r.1 = true := by
    intro u r h
    unfold CuentasRepository.update at h
    split at h
    · rw [← Except.ok.inj h]
    · cases h
  exact ⟨hu, fun v r h => hu _ r h, fun e r h => hu _ r h, fun r h => hu _ r h⟩

/-- Fixture store for the C10 witness. -/
def sC10 : ServiceState := ⟨[("c10", cuentaAct100)], []⟩

/-- Result of the C10 witness soft delete. -/
def rC10 : Bool × ServiceState :=
  (true, updCuentas sC10 "c10" (estadoUpdate EstadoCuenta.CERRADA))

/-- C10 witness: a concrete successful soft delete returns True. -/
theorem c10_witness : rC10.1 = true :=
  (c10_repo_mutations_true sC10 "c10").2.2.2 rC10 rfl

end Claims

end Panchos
